import Mathlib

/-!
Shallow embedding of `ImuCameraCalibrator` (OpenImuCameraCalibrator,
`src/imu_camera_calibrator.cc`) over exact rational arithmetic, together
with theorems settling the frozen claims about `InitSpline`,
`InitializeGravity`, `Optimize` and `ClearSpline`.

C++ `double` values are modelled as `ℚ`; C++ `int64_t` conversions from
`double` are modelled by truncation toward zero (`cppToInt64`); C++
`int64_t` division is truncating division (`Int.tdiv`).
-/

/-- A 3-vector of rationals, modelling `Eigen::Vector3d`. -/
structure Vec3 where
  x : ℚ
  y : ℚ
  z : ℚ
deriving DecidableEq

/-- Componentwise addition, modelling `Eigen` vector addition. -/
def Vec3.add (a b : Vec3) : Vec3 := ⟨a.x + b.x, a.y + b.y, a.z + b.z⟩

instance : Add Vec3 := ⟨Vec3.add⟩

/-- The zero vector. -/
def Vec3.zero : Vec3 := ⟨0, 0, 0⟩

/-- Componentwise negation. -/
def Vec3.neg (a : Vec3) : Vec3 := ⟨-a.x, -a.y, -a.z⟩

/-- A 3x3 rational matrix, modelling `Eigen::Matrix3d` (row major fields). -/
structure Mat3 where
  a00 : ℚ
  a01 : ℚ
  a02 : ℚ
  a10 : ℚ
  a11 : ℚ
  a12 : ℚ
  a20 : ℚ
  a21 : ℚ
  a22 : ℚ
deriving DecidableEq

/-- The identity matrix. -/
def Mat3.id : Mat3 := ⟨1, 0, 0, 0, 1, 0, 0, 0, 1⟩

/-- Matrix transpose. -/
def Mat3.transpose (m : Mat3) : Mat3 :=
  ⟨m.a00, m.a10, m.a20, m.a01, m.a11, m.a21, m.a02, m.a12, m.a22⟩

/-- Matrix-vector product. -/
def Mat3.mulVec (m : Mat3) (v : Vec3) : Vec3 :=
  ⟨m.a00 * v.x + m.a01 * v.y + m.a02 * v.z,
   m.a10 * v.x + m.a11 * v.y + m.a12 * v.z,
   m.a20 * v.x + m.a21 * v.y + m.a22 * v.z⟩

/-- Matrix-matrix product. -/
def Mat3.mul (m n : Mat3) : Mat3 :=
  ⟨m.a00 * n.a00 + m.a01 * n.a10 + m.a02 * n.a20,
   m.a00 * n.a01 + m.a01 * n.a11 + m.a02 * n.a21,
   m.a00 * n.a02 + m.a01 * n.a12 + m.a02 * n.a22,
   m.a10 * n.a00 + m.a11 * n.a10 + m.a12 * n.a20,
   m.a10 * n.a01 + m.a11 * n.a11 + m.a12 * n.a21,
   m.a10 * n.a02 + m.a11 * n.a12 + m.a12 * n.a22,
   m.a20 * n.a00 + m.a21 * n.a10 + m.a22 * n.a20,
   m.a20 * n.a01 + m.a21 * n.a11 + m.a22 * n.a21,
   m.a20 * n.a02 + m.a21 * n.a12 + m.a22 * n.a22⟩

/-- A rigid transform, modelling `Sophus::SE3<double>`: rotation part `R`
(as a matrix, `so3()`), translation part `t`. -/
structure SE3 where
  R : Mat3
  t : Vec3
deriving DecidableEq

/-- Group composition of rigid transforms: `(R1, t1) * (R2, t2) =
(R1 R2, R1 t2 + t1)`. -/
def SE3.mul (a b : SE3) : SE3 := ⟨a.R.mul b.R, a.R.mulVec b.t + a.t⟩

/-- Group inverse of a rigid transform (for a rotation `R` the inverse of
the matrix is its transpose): `(R, t)⁻¹ = (Rᵀ, -(Rᵀ t))`. -/
def SE3.inverse (a : SE3) : SE3 :=
  ⟨a.R.transpose, (a.R.transpose.mulVec a.t).neg⟩

/-- The identity transform. -/
def SE3.id : SE3 := ⟨Mat3.id, Vec3.zero⟩

/-- C++ conversion of a `double` to `int64_t`: truncation toward zero.
Source sites: `t0_s_ * 1e9`, `tend_s_ * 1e9`, `dt * 1e9`,
`timestamp_ms[i] * 1e-3` assigned to integer variables. -/
def cppToInt64 (q : ℚ) : ℤ := Int.tdiv q.num q.den

/-- A 2D image point, modelling `Eigen::Vector2d` (a Theia feature). -/
structure Vec2 where
  u : ℚ
  v : ℚ
deriving DecidableEq

/-- One view (frame) of the Theia reconstruction: capture timestamp in
seconds (`GetTimestamp()`), camera orientation matrix
(`Camera().GetOrientationAsRotationMatrix()`), camera position
(`Camera().GetPosition()`), image height (`Camera().ImageHeight()`), and
the (track id, feature) pairs in `TrackIds()` order, so that
`TrackIds()` is `tracks.map Prod.fst` and `GetFeature(trackIds[t])` is
`(tracks.map Prod.snd)[t]`. -/
structure View where
  timestamp : ℚ
  orientation : Mat3
  position : Vec3
  image_height : ℚ
  tracks : List (ℕ × Vec2)
deriving DecidableEq

/-- The Theia reconstruction: its views in `ViewIds()` order. -/
structure Reconstruction where
  views : List View
deriving DecidableEq

/-- One telemetry channel (`accelerometer` or `gyroscope`): parallel lists
of timestamps in milliseconds and 3-vector measurements; the C++ loops
walk both lists at the same index, modelled by zipping them. -/
structure ImuSensorStream where
  timestamp_ms : List ℚ
  measurement : List Vec3
deriving DecidableEq

/-- The indexed samples of a telemetry channel: (timestamp_ms, measurement)
pairs in stream order. -/
def ImuSensorStream.samples (s : ImuSensorStream) : List (ℚ × Vec3) :=
  s.timestamp_ms.zip s.measurement

/-- The telemetry input (`OpenICC::CameraTelemetryData`): an accelerometer
stream and a gyroscope stream. -/
structure CameraTelemetryData where
  accelerometer : ImuSensorStream
  gyroscope : ImuSensorStream
deriving DecidableEq

/-- The spline weighting configuration (`SplineWeightingData`): knot
spacings `dt_so3`, `dt_r3` (seconds), inverse-variance sources `var_so3`,
`var_r3`, nominal camera frame rate `cam_fps`. -/
structure SplineWeightingData where
  dt_so3 : ℚ
  dt_r3 : ℚ
  var_so3 : ℚ
  var_r3 : ℚ
  cam_fps : ℚ
deriving DecidableEq

/-- The composite measurement key `TimeCamId`: timestamp in nanoseconds and
camera index, ordered lexicographically. -/
structure TimeCamId where
  frame_id : ℤ
  cam_id : ℕ
deriving DecidableEq

/-- Lexicographic strict order on `TimeCamId`, the `std::map` key order. -/
def TimeCamId.blt (a b : TimeCamId) : Bool :=
  decide (a.frame_id < b.frame_id) ||
    (decide (a.frame_id = b.frame_id) && decide (a.cam_id < b.cam_id))

/-- Per-frame corner data (`CalibCornerData`): the 2D corners and their
track ids. -/
structure CalibCornerData where
  corners : List Vec2
  track_ids : List ℕ
deriving DecidableEq

/-- Per-frame initial pose data (`CalibInitPoseData`). -/
structure CalibInitPoseData where
  T_a_c : SE3
deriving DecidableEq

/-- Ordered-map insertion, modelling `std::map::operator[]` assignment:
keeps the association list sorted by `lt`, overwriting an existing key. -/
def mapInsert {κ α : Type} (lt : κ → κ → Bool) [DecidableEq κ]
    (k : κ) (v : α) : List (κ × α) → List (κ × α)
  | [] => [(k, v)]
  | (k₁, v₁) :: rest =>
    if lt k k₁ then (k, v) :: (k₁, v₁) :: rest
    else if k = k₁ then (k, v) :: rest
    else (k₁, v₁) :: mapInsert lt k v rest

/-- Ordered-map lookup, modelling `std::map::find` / `std::map::at`. -/
def mapFind {κ α : Type} [DecidableEq κ] (k : κ) :
    List (κ × α) → Option α
  | [] => none
  | (k₁, v₁) :: rest => if k = k₁ then some v₁ else mapFind k rest

/-- Strict order on `ℚ` keys as a Bool, the `std::map<double, _>` key
order for the IMU measurement maps. -/
def qblt (a b : ℚ) : Bool := decide (a < b)

/-- Modelled from the spec: the continuous-time trajectory
(`CeresCalibrationSplineSplit`, spec section 4.2) is not under `src/`;
only its call sites are. It is modelled as the store the spec describes:
knot-grid configuration, line delay, extrinsic estimate, gravity vector,
the reconstruction handed to `setCalib`, the initialization poses and knot
counts handed to `initAll`, the accumulated residual descriptors (corner
frame ids, accelerometer and gyroscope samples with weight and
re-estimation flag), and the number of delegated solver invocations. -/
structure Trajectory where
  line_delay : ℚ
  dt_so3_ns : ℤ
  dt_r3_ns : ℤ
  start_t_ns : ℤ
  calib : Option Reconstruction
  T_i_c : SE3
  g : Vec3
  init_poses : List (TimeCamId × CalibInitPoseData)
  nr_knots_so3 : ℤ
  nr_knots_r3 : ℤ
  corner_meas : List ℤ
  accel_meas : List (Vec3 × ℚ × ℚ × Bool)
  gyro_meas : List (Vec3 × ℚ × ℚ × Bool)
  optimize_calls : ℕ
deriving DecidableEq

/-- Modelled from the spec: the empty trajectory state (spec section 4.4,
`Clear(): any state → Empty ... resets the Trajectory to an empty
state`). -/
def Trajectory.empty : Trajectory :=
  ⟨0, 0, 0, 0, none, SE3.id, Vec3.zero, [], 0, 0, [], [], [], 0⟩

/-- Modelled from the spec: `SetInitialRSLineDelay` stores the initial
rolling-shutter line delay. -/
def Trajectory.SetInitialRSLineDelay (tr : Trajectory) (d : ℚ) : Trajectory :=
  { tr with line_delay := d }

/-- Modelled from the spec: `init_times` stores the knot spacings and the
epoch, all in nanoseconds. -/
def Trajectory.init_times (tr : Trajectory) (dtso3 dtr3 start : ℤ) :
    Trajectory :=
  { tr with dt_so3_ns := dtso3, dt_r3_ns := dtr3, start_t_ns := start }

/-- Modelled from the spec: `setCalib` stores the reconstruction. -/
def Trajectory.setCalib (tr : Trajectory) (c : Reconstruction) : Trajectory :=
  { tr with calib := some c }

/-- Modelled from the spec: `setT_i_c` stores the camera-to-IMU estimate. -/
def Trajectory.setT_i_c (tr : Trajectory) (T : SE3) : Trajectory :=
  { tr with T_i_c := T }

/-- Modelled from the spec: `setG` stores the gravity parameter. -/
def Trajectory.setG (tr : Trajectory) (v : Vec3) : Trajectory :=
  { tr with g := v }

/-- Modelled from the spec: `initAll` stores the initialization poses and
the two knot counts and allocates the knots from them. -/
def Trajectory.initAll (tr : Trajectory)
    (poses : List (TimeCamId × CalibInitPoseData)) (nso3 nr3 : ℤ) :
    Trajectory :=
  { tr with init_poses := poses, nr_knots_so3 := nso3, nr_knots_r3 := nr3 }

/-- Modelled from the spec: `addRSCornersMeasurement` accumulates a
rolling-shutter reprojection residual block for the given frame id. -/
def Trajectory.addRSCornersMeasurement (tr : Trajectory) (fid : ℤ) :
    Trajectory :=
  { tr with corner_meas := tr.corner_meas ++ [fid] }

/-- Modelled from the spec: `addAccelMeasurement` accumulates an
accelerometer residual block (measurement, time in nanoseconds as a
`double`, weight, re-estimation flag). -/
def Trajectory.addAccelMeasurement (tr : Trajectory) (m : Vec3)
    (t_ns w : ℚ) (re : Bool) : Trajectory :=
  { tr with accel_meas := tr.accel_meas ++ [(m, t_ns, w, re)] }

/-- Modelled from the spec: `addGyroMeasurement` accumulates a gyroscope
residual block. -/
def Trajectory.addGyroMeasurement (tr : Trajectory) (m : Vec3)
    (t_ns w : ℚ) (re : Bool) : Trajectory :=
  { tr with gyro_meas := tr.gyro_meas ++ [(m, t_ns, w, re)] }

/-- Modelled from the spec: `optimize` delegates to the external solver
(spec sections 4.2, 5); the model records the invocation. -/
def Trajectory.optimize (tr : Trajectory) (iterations : ℤ) : Trajectory :=
  { tr with optimize_calls := tr.optimize_calls + 1 }

/-- Modelled from the spec: the two mean reprojection diagnostics
(`meanReprojection`, `meanRSReprojection`) are computed by the trajectory
implementation, which is not under `src/`; their values are opaque to
every claim, so they are modelled as an unspecified-but-fixed value. -/
def Trajectory.meanReprojection (tr : Trajectory)
    (corners : List (TimeCamId × CalibCornerData)) : ℚ := 0

/-- Modelled from the spec: the rolling-shutter-aware mean reprojection
diagnostic; opaque to every claim. -/
def Trajectory.meanRSReprojection (tr : Trajectory)
    (corners : List (TimeCamId × CalibCornerData)) : ℚ := 0

/-- Modelled from the spec: `Clear` resets the trajectory to the empty
state. -/
def Trajectory.Clear (tr : Trajectory) : Trajectory := Trajectory.empty

/-- Modelled from the spec: the spline order constant `SPLINE_N` is
declared in a header that is not under `src/`; the spec fixes only that it
is the spline order added to the knot-count quotient. The concrete value 4
(a common B-spline order) stands in; no claim below depends on the value,
only on the additive structure. -/
def SPLINE_N : ℤ := 4

/-- The calibrator state: the member fields of `ImuCameraCalibrator`.
The measurement maps are ordered association lists (`std::map`). -/
structure ImuCameraCalibrator where
  spline_weight_data_ : SplineWeightingData
  T_i_c_init_ : SE3
  cam_timestamps_ : List ℚ
  inital_cam_line_delay_s_ : ℚ
  t0_s_ : ℚ
  tend_s_ : ℚ
  nr_knots_so3_ : ℤ
  nr_knots_r3_ : ℤ
  calib_corners_ : List (TimeCamId × CalibCornerData)
  calib_init_poses_ : List (TimeCamId × CalibInitPoseData)
  spline_init_poses_ : List (TimeCamId × CalibInitPoseData)
  accl_measurements : List (ℚ × Vec3)
  gyro_measurements : List (ℚ × Vec3)
  gravity_init_ : Vec3
  gravity_initialized_ : Bool
  calibrate_cam_line_delay_ : Bool
  reestimate_biases_ : Bool
  trajectory_ : Trajectory
deriving DecidableEq

/-- Modelled from the spec: a freshly constructed calibrator (state
`Empty` of the orchestrator state machine, spec section 4.4) with the two
configuration flags; all containers empty, gravity not initialized. -/
def ImuCameraCalibrator.mk0 (calibrate_line_delay reestimate : Bool) :
    ImuCameraCalibrator :=
  ⟨⟨0, 0, 0, 0, 0⟩, SE3.id, [], 0, 0, 0, 0, 0, [], [], [], [], [],
   Vec3.zero, false, calibrate_line_delay, reestimate, Trajectory.empty⟩

namespace ImuCameraCalibrator

/-- The first per-view ingestion loop of `InitSpline` (source lines
73-97): for each view in `ViewIds()` order, skip it unless
`t0_s_ ≤ timestamp < tend_s_`; otherwise store its corner data and its
initial pose under `TimeCamId(timestamp * 1e9, 0)`, and store the spline
initialization pose `T_a_c * T_i_c_init⁻¹` read back from the just-updated
pose map (`calib_init_poses_.at`). The three maps are threaded through. -/
def ingestViews (T_i_c_init : SE3) (t0 tend : ℚ) :
    List View →
    List (TimeCamId × CalibCornerData) ×
      List (TimeCamId × CalibInitPoseData) ×
      List (TimeCamId × CalibInitPoseData) →
    List (TimeCamId × CalibCornerData) ×
      List (TimeCamId × CalibInitPoseData) ×
      List (TimeCamId × CalibInitPoseData)
  | [], acc => acc
  | view :: rest, (cs, ips, sps) =>
    if view.timestamp ≥ tend ∨ view.timestamp < t0 then
      ingestViews T_i_c_init t0 tend rest (cs, ips, sps)
    else
      let t_c_id : TimeCamId := ⟨cppToInt64 (view.timestamp * 1000000000), 0⟩
      let corner_data : CalibCornerData :=
        ⟨view.tracks.map Prod.snd, view.tracks.map Prod.fst⟩
      let cs₁ := mapInsert TimeCamId.blt t_c_id corner_data cs
      let pose_data : CalibInitPoseData :=
        ⟨⟨view.orientation.transpose, view.position⟩⟩
      let ips₁ := mapInsert TimeCamId.blt t_c_id pose_data ips
      let sps₁ :=
        match mapFind t_c_id ips₁ with
        | none => sps
        | some pd =>
          mapInsert TimeCamId.blt t_c_id ⟨pd.T_a_c.mul T_i_c_init.inverse⟩ sps
      ingestViews T_i_c_init t0 tend rest (cs₁, ips₁, sps₁)

/-- The corner-residual loop of `InitSpline` (source lines 108-114): walk
`calib_corners_` in map order and add a rolling-shutter corner residual
for every entry whose frame id lies in `[start_t_ns, end_t_ns)`. -/
def addCorners (start_t_ns end_t_ns : ℤ) (tr : Trajectory) :
    List (TimeCamId × CalibCornerData) → Trajectory
  | [] => tr
  | kv :: rest =>
    if kv.1.frame_id ≥ start_t_ns ∧ kv.1.frame_id < end_t_ns then
      addCorners start_t_ns end_t_ns
        (tr.addRSCornersMeasurement kv.1.frame_id) rest
    else addCorners start_t_ns end_t_ns tr rest

/-- The accelerometer ingestion loop of `InitSpline` (source lines
117-129): for each sample, the corrected time is
`timestamp_ms * 1e-3 + time_offset_imu_to_cam`; samples outside
`[t0_s_, tend_s_)` are skipped; otherwise the bias-corrected measurement
is added to the trajectory (time `t * 1e9`, weight `1 / var_r3`) and
stored in `accl_measurements[t]`. -/
def ingestAccl (toff : ℚ) (bias : Vec3) (t0 tend var : ℚ) (re : Bool) :
    List (ℚ × Vec3) → Trajectory × List (ℚ × Vec3) →
    Trajectory × List (ℚ × Vec3)
  | [], acc => acc
  | (ts_ms, meas) :: rest, (tr, m) =>
    let t := ts_ms * (1 / 1000) + toff
    if t < t0 ∨ t ≥ tend then ingestAccl toff bias t0 tend var re rest (tr, m)
    else
      let unbiased := meas + bias
      ingestAccl toff bias t0 tend var re rest
        (tr.addAccelMeasurement unbiased (t * 1000000000) (1 / var) re,
         mapInsert qblt t unbiased m)

/-- The gyroscope ingestion loop of `InitSpline` (source lines 132-144),
identical in shape to the accelerometer loop with weight `1 / var_so3`. -/
def ingestGyro (toff : ℚ) (bias : Vec3) (t0 tend var : ℚ) (re : Bool) :
    List (ℚ × Vec3) → Trajectory × List (ℚ × Vec3) →
    Trajectory × List (ℚ × Vec3)
  | [], acc => acc
  | (ts_ms, meas) :: rest, (tr, m) =>
    let t := ts_ms * (1 / 1000) + toff
    if t < t0 ∨ t ≥ tend then ingestGyro toff bias t0 tend var re rest (tr, m)
    else
      let unbiased := meas + bias
      ingestGyro toff bias t0 tend var re rest
        (tr.addGyroMeasurement unbiased (t * 1000000000) (1 / var) re,
         mapInsert qblt t unbiased m)

/-- The result of `std::minmax_element` over a range of values: `none` on
an empty range (where the source would dereference past-the-end
iterators), otherwise the (smallest, largest) pair. -/
def minmaxElement : List ℚ → Option (ℚ × ℚ)
  | [] => none
  | x :: xs => some (xs.foldl (fun p y => (min p.1 y, max p.2 y)) (x, x))

end ImuCameraCalibrator

namespace ImuCameraCalibrator

set_option maxHeartbeats 1600000 in
/-- `ImuCameraCalibrator::InitSpline` (source lines 23-145). The member
assignments are threaded in source order. The two places where the source
indexes a container that can be empty — `view_ids[0]` when line-delay
calibration is enabled, and the `minmax_element` results over
`cam_timestamps_` — have no defined C++ result on empty input; the
embedding returns `Except.error` there, carrying the state as already
mutated up to that point. -/
def InitSpline (self : ImuCameraCalibrator) (calib_dataset : Reconstruction)
    (T_i_c_init : SE3) (spline_weight_data : SplineWeightingData)
    (time_offset_imu_to_cam : ℚ) (gyro_bias accl_bias : Vec3)
    (telemetry_data : CameraTelemetryData) :
    Except ImuCameraCalibrator ImuCameraCalibrator :=
  let s₁ : ImuCameraCalibrator :=
    { self with
      spline_weight_data_ := spline_weight_data
      T_i_c_init_ := T_i_c_init }
  let s₂ : ImuCameraCalibrator :=
    { s₁ with
      cam_timestamps_ := (List.insertionSort (fun a b => a ≤ b)
        (s₁.cam_timestamps_ ++ calib_dataset.views.map View.timestamp)) }
  let delay? : Option ℚ :=
    if s₂.calibrate_cam_line_delay_ then
      match calib_dataset.views with
      | [] => none
      | v :: _ =>
        some ((1 / spline_weight_data.cam_fps) * (1 / v.image_height))
    else some 0
  match delay? with
  | none => .error s₂
  | some delay =>
    let s₃ : ImuCameraCalibrator :=
      { s₂ with
        inital_cam_line_delay_s_ := delay
        trajectory_ := s₂.trajectory_.SetInitialRSLineDelay delay }
    match minmaxElement s₃.cam_timestamps_ with
    | none => .error s₃
    | some (tmin, tmax) =>
      let s₄ : ImuCameraCalibrator := { s₃ with t0_s_ := tmin, tend_s_ := tmax }
      let start_t_ns : ℤ := cppToInt64 (s₄.t0_s_ * 1000000000)
      let end_t_ns : ℤ := cppToInt64 (s₄.tend_s_ * 1000000000)
      let dt_so3_ns : ℤ :=
        cppToInt64 (s₄.spline_weight_data_.dt_so3 * 1000000000)
      let dt_r3_ns : ℤ :=
        cppToInt64 (s₄.spline_weight_data_.dt_r3 * 1000000000)
      let s₅ : ImuCameraCalibrator :=
        { s₄ with
          trajectory_ := ((s₄.trajectory_.init_times dt_so3_ns dt_r3_ns
            start_t_ns).setCalib calib_dataset).setT_i_c T_i_c_init }
      let maps := ingestViews T_i_c_init s₅.t0_s_ s₅.tend_s_
        calib_dataset.views
        (s₅.calib_corners_, s₅.calib_init_poses_, s₅.spline_init_poses_)
      let s₆ : ImuCameraCalibrator :=
        { s₅ with
          calib_corners_ := maps.1
          calib_init_poses_ := maps.2.1
          spline_init_poses_ := maps.2.2 }
      let s₇ : ImuCameraCalibrator :=
        { s₆ with
          nr_knots_so3_ := (end_t_ns - start_t_ns).tdiv dt_so3_ns + SPLINE_N
          nr_knots_r3_ := (end_t_ns - start_t_ns).tdiv dt_r3_ns + SPLINE_N }
      let s₈ : ImuCameraCalibrator :=
        { s₇ with
          trajectory_ := (s₇.trajectory_.initAll s₇.spline_init_poses_
            s₇.nr_knots_so3_ s₇.nr_knots_r3_) }
      let s₉ : ImuCameraCalibrator :=
        { s₈ with
          trajectory_ := (addCorners start_t_ns end_t_ns s₈.trajectory_
            s₈.calib_corners_) }
      let accl : Trajectory × List (ℚ × Vec3) :=
        ingestAccl time_offset_imu_to_cam accl_bias s₉.t0_s_ s₉.tend_s_
          s₉.spline_weight_data_.var_r3 s₉.reestimate_biases_
          telemetry_data.accelerometer.samples
          (s₉.trajectory_, s₉.accl_measurements)
      let s₁₀ : ImuCameraCalibrator :=
        { s₉ with trajectory_ := accl.1, accl_measurements := accl.2 }
      let gyro : Trajectory × List (ℚ × Vec3) :=
        ingestGyro time_offset_imu_to_cam gyro_bias s₁₀.t0_s_ s₁₀.tend_s_
          s₁₀.spline_weight_data_.var_so3 s₁₀.reestimate_biases_
          telemetry_data.gyroscope.samples
          (s₁₀.trajectory_, s₁₀.gyro_measurements)
      .ok { s₁₀ with trajectory_ := gyro.1, gyro_measurements := gyro.2 }

/-- The inner accelerometer scan of `InitializeGravity` (source lines
294-308): walk the samples while gravity is not yet initialized; the
sample timestamp in seconds is truncated into the `int64_t` variable
`accl_t`; on the first sample with `|accl_t - cam_t| < 1/30` store
`T_a_i.so3() * (measurement + accl_bias)` and mark gravity initialized. -/
def scanAcclForGravity (accl_bias : Vec3) (cam_t : ℚ) (T_a_i : SE3) :
    List (ℚ × Vec3) → Vec3 × Bool → Vec3 × Bool
  | [], p => p
  | (ts_ms, meas) :: rest, (g, initialized) =>
    if initialized then (g, initialized)
    else
      let ad := meas + accl_bias
      let accl_t : ℤ := cppToInt64 (ts_ms * (1 / 1000))
      if |(accl_t : ℚ) - cam_t| < 1 / 30 then
        scanAcclForGravity accl_bias cam_t T_a_i rest (T_a_i.R.mulVec ad, true)
      else scanAcclForGravity accl_bias cam_t T_a_i rest (g, initialized)

/-- `ImuCameraCalibrator::InitializeGravity` (source lines 281-313): for
each camera timestamp, look its pose up in `calib_init_poses_` under
`TimeCamId(timestamp * 1e9, 0)`; when found and gravity is not yet
initialized, scan the accelerometer samples; finally `setG` is called on
the trajectory with `gravity_init_` unconditionally. -/
def InitializeGravity (self : ImuCameraCalibrator)
    (telemetry_data : CameraTelemetryData) (accl_bias : Vec3) :
    ImuCameraCalibrator :=
  let p := self.cam_timestamps_.foldl
    (fun (p : Vec3 × Bool) cam_t =>
      let timestamp_ns := cppToInt64 (cam_t * 1000000000)
      match mapFind ⟨timestamp_ns, 0⟩ self.calib_init_poses_ with
      | none => p
      | some cp =>
        let T_a_i := cp.T_a_c.mul self.T_i_c_init_.inverse
        if p.2 then p
        else scanAcclForGravity accl_bias cam_t T_a_i
          telemetry_data.accelerometer.samples p)
    (self.gravity_init_, self.gravity_initialized_)
  { self with gravity_init_ := p.1, gravity_initialized_ := p.2,
              trajectory_ := self.trajectory_.setG p.1 }

/-- `ImuCameraCalibrator::Optimize` (source lines 315-321): invoke the
trajectory solve for the given iteration count — with no precondition
check of any kind — then return the two mean-reprojection diagnostics. -/
def Optimize (self : ImuCameraCalibrator) (iterations : ℤ) :
    ImuCameraCalibrator × (ℚ × ℚ) :=
  let tr := self.trajectory_.optimize iterations
  ({ self with trajectory_ := tr },
   (tr.meanReprojection self.calib_corners_,
    tr.meanRSReprojection self.calib_corners_))

/-- `ImuCameraCalibrator::ClearSpline` (source lines 339-347): clear the
timestamp vector and the five measurement/pose maps and reset the
trajectory; every other member — including `gravity_init_` and
`gravity_initialized_` — is left as it was. -/
def ClearSpline (self : ImuCameraCalibrator) : ImuCameraCalibrator :=
  { self with cam_timestamps_ := [], gyro_measurements := [],
              accl_measurements := [], calib_corners_ := [],
              calib_init_poses_ := [], spline_init_poses_ := [],
              trajectory_ := self.trajectory_.Clear }

end ImuCameraCalibrator

namespace ImuCameraCalibrator

/-- The state `InitSpline` produces from a clean calibrator (empty
timestamp vector, empty maps, empty trajectory) on a nonempty
reconstruction, written out field by field; `ld`/`rb` are the
configuration flags and `g0`/`gf0` the (untouched) gravity members of the
initial state, and `tmin`/`tmax` the `minmax_element` results. -/
def initSplineOutput (ld rb : Bool) (g0 : Vec3) (gf0 : Bool)
    (calib_dataset : Reconstruction) (T_i_c_init : SE3)
    (spline_weight_data : SplineWeightingData) (toff : ℚ) (gb ab : Vec3)
    (tel : CameraTelemetryData) (tmin tmax : ℚ) : ImuCameraCalibrator :=
  let sorted : List ℚ := List.insertionSort (fun a b => a ≤ b)
    (calib_dataset.views.map View.timestamp)
  let delay : ℚ :=
    if ld then
      match calib_dataset.views with
      | [] => 0
      | v :: _ =>
        (1 / spline_weight_data.cam_fps) * (1 / v.image_height)
    else 0
  let start_t_ns : ℤ := cppToInt64 (tmin * 1000000000)
  let end_t_ns : ℤ := cppToInt64 (tmax * 1000000000)
  let dt_so3_ns : ℤ := cppToInt64 (spline_weight_data.dt_so3 * 1000000000)
  let dt_r3_ns : ℤ := cppToInt64 (spline_weight_data.dt_r3 * 1000000000)
  let nso3 : ℤ := (end_t_ns - start_t_ns).tdiv dt_so3_ns + SPLINE_N
  let nr3 : ℤ := (end_t_ns - start_t_ns).tdiv dt_r3_ns + SPLINE_N
  let maps := ingestViews T_i_c_init tmin tmax calib_dataset.views
    ([], [], [])
  let tr₁ : Trajectory :=
    ((((Trajectory.empty.SetInitialRSLineDelay delay).init_times dt_so3_ns
      dt_r3_ns start_t_ns).setCalib calib_dataset).setT_i_c
      T_i_c_init).initAll maps.2.2 nso3 nr3
  let tr₂ : Trajectory := addCorners start_t_ns end_t_ns tr₁ maps.1
  let accl : Trajectory × List (ℚ × Vec3) :=
    ingestAccl toff ab tmin tmax spline_weight_data.var_r3 rb
      tel.accelerometer.samples (tr₂, [])
  let gyro : Trajectory × List (ℚ × Vec3) :=
    ingestGyro toff gb tmin tmax spline_weight_data.var_so3 rb
      tel.gyroscope.samples (accl.1, [])
  { spline_weight_data_ := spline_weight_data
    T_i_c_init_ := T_i_c_init
    cam_timestamps_ := sorted
    inital_cam_line_delay_s_ := delay
    t0_s_ := tmin
    tend_s_ := tmax
    nr_knots_so3_ := nso3
    nr_knots_r3_ := nr3
    calib_corners_ := maps.1
    calib_init_poses_ := maps.2.1
    spline_init_poses_ := maps.2.2
    accl_measurements := accl.2
    gyro_measurements := gyro.2
    gravity_init_ := g0
    gravity_initialized_ := gf0
    calibrate_cam_line_delay_ := ld
    reestimate_biases_ := rb
    trajectory_ := gyro.1 }

end ImuCameraCalibrator

/-- A test view at t = 10 s with identity orientation, no tracks. -/
def view10 : View := ⟨10, Mat3.id, Vec3.zero, 1080, []⟩

/-- A test view at t = 11 s with identity orientation, no tracks. -/
def view11 : View := ⟨11, Mat3.id, Vec3.zero, 1080, []⟩

/-- A two-frame test reconstruction (t = 10 s and t = 11 s). -/
def recon2 : Reconstruction := ⟨[view10, view11]⟩

/-- A test view at t = 0 s. -/
def view0 : View := ⟨0, Mat3.id, Vec3.zero, 1080, []⟩

/-- A test view at t = 1.5 s. -/
def viewHalf : View := ⟨3/2, Mat3.id, Vec3.zero, 1080, []⟩

/-- A two-frame test reconstruction spanning a window of 1.5 s. -/
def recon7 : Reconstruction := ⟨[view0, viewHalf]⟩

/-- A reconstruction with no views (empty camera timestamp set). -/
def reconEmpty : Reconstruction := ⟨[]⟩

/-- A test weighting configuration: 1 s knot spacings, unit variances,
30 fps. -/
def swd0 : SplineWeightingData := ⟨1, 1, 1, 1, 30⟩

/-- Telemetry with one accelerometer sample at 10.02 s (10020 ms)
measuring (0, 0, 9.81), within the 1/30 s tolerance of t = 10 s. -/
def telMatch : CameraTelemetryData :=
  ⟨⟨[10020], [⟨0, 0, 981/100⟩]⟩, ⟨[], []⟩⟩

/-- Telemetry with one accelerometer sample at 10.5 s (10500 ms)
measuring (0, 0, 9.81), outside the 1/30 s tolerance of t = 10 s. -/
def telHalfOff : CameraTelemetryData :=
  ⟨⟨[10500], [⟨0, 0, 981/100⟩]⟩, ⟨[], []⟩⟩

/-- Telemetry with one accelerometer sample at 25 s, far from every
camera timestamp. -/
def telMiss : CameraTelemetryData :=
  ⟨⟨[25000], [⟨0, 0, 981/100⟩]⟩, ⟨[], []⟩⟩

/-- Telemetry with one accelerometer sample at 10.97 s (10970 ms),
within the 1/30 s tolerance of the camera timestamp 10.99 s. -/
def telC4 : CameraTelemetryData :=
  ⟨⟨[10970], [⟨0, 0, 981/100⟩]⟩, ⟨[], []⟩⟩

/-- Empty telemetry. -/
def telEmpty : CameraTelemetryData := ⟨⟨[], []⟩, ⟨[], []⟩⟩

/-- The calibrator state of the spec's gravity test scenario: one camera
timestamp at t = 10 s whose identity pose is registered under its
nanosecond key, identity camera-to-IMU estimate. -/
def c3State : ImuCameraCalibrator :=
  { ImuCameraCalibrator.mk0 false false with
    cam_timestamps_ := [10],
    calib_init_poses_ := [(⟨10000000000, 0⟩, ⟨SE3.id⟩)] }

/-- A calibrator state with one camera timestamp at t = 10.99 s whose
identity pose is registered under its nanosecond key. -/
def c4State : ImuCameraCalibrator :=
  { ImuCameraCalibrator.mk0 false false with
    cam_timestamps_ := [1099/100],
    calib_init_poses_ := [(⟨10990000000, 0⟩, ⟨SE3.id⟩)] }

/-- A used calibrator instance: a fresh calibrator taken through
`InitSpline` on the two-frame reconstruction and `InitializeGravity` with
a matching accelerometer sample, so its gravity flag is set. -/
def usedCalib : ImuCameraCalibrator :=
  ImuCameraCalibrator.InitializeGravity
    (ImuCameraCalibrator.initSplineOutput false false Vec3.zero false
      recon2 SE3.id swd0 0 Vec3.zero Vec3.zero telMatch 10 11)
    telMatch Vec3.zero

/-! Helper lemmas about the embedding's building blocks. -/

/-- Truncation toward zero agrees with the floor on nonnegative values. -/
theorem cppToInt64_eq_floor (q : ℚ) (h : 0 ≤ q) : cppToInt64 q = ⌊q⌋ := by
  rw [Rat.floor_def, cppToInt64]
  have hnum : 0 ≤ q.num := Rat.num_nonneg.mpr h
  obtain ⟨m, hm⟩ := Int.eq_ofNat_of_zero_le hnum
  rw [hm]
  rfl

/-- Membership after a map insertion: an entry of the result is the new
entry or an old one. -/
theorem mem_mapInsert {κ α : Type} (lt : κ → κ → Bool) [DecidableEq κ]
    (k : κ) (v : α) (m : List (κ × α)) :
    ∀ p ∈ mapInsert lt k v m, p = (k, v) ∨ p ∈ m := by
  induction m with
  | nil => simp [mapInsert]
  | cons hd tl ih =>
    obtain ⟨k₁, v₁⟩ := hd
    intro p hp
    rw [mapInsert] at hp
    split at hp
    · rcases List.mem_cons.mp hp with h | h
      · exact Or.inl h
      · exact Or.inr h
    · split at hp
      · rcases List.mem_cons.mp hp with h | h
        · exact Or.inl h
        · exact Or.inr (List.mem_cons_of_mem _ h)
      · rcases List.mem_cons.mp hp with h | h
        · exact Or.inr (by simp [h])
        · rcases ih p h with h' | h'
          · exact Or.inl h'
          · exact Or.inr (List.mem_cons_of_mem _ h')

/-- A just-inserted key is a key of the result. -/
theorem key_mem_mapInsert_self {κ α : Type} (lt : κ → κ → Bool)
    [DecidableEq κ] (k : κ) (v : α) (m : List (κ × α)) :
    k ∈ (mapInsert lt k v m).map Prod.fst := by
  induction m with
  | nil => simp [mapInsert]
  | cons hd tl ih =>
    obtain ⟨k₁, v₁⟩ := hd
    rw [mapInsert]
    split
    · simp only [List.map_cons, List.mem_cons]
      exact Or.inl trivial
    · split
      · simp only [List.map_cons, List.mem_cons]
        exact Or.inl trivial
      · simp only [List.map_cons, List.mem_cons]
        exact Or.inr ih

/-- Insertion preserves the presence of every key. -/
theorem key_mem_mapInsert_of_mem {κ α : Type} (lt : κ → κ → Bool)
    [DecidableEq κ] (k k₀ : κ) (v : α) (m : List (κ × α))
    (h : k₀ ∈ m.map Prod.fst) :
    k₀ ∈ (mapInsert lt k v m).map Prod.fst := by
  induction m with
  | nil => simp at h
  | cons hd tl ih =>
    obtain ⟨k₁, v₁⟩ := hd
    rw [mapInsert]
    split
    · simp only [List.map_cons, List.mem_cons] at h ⊢
      rcases h with h | h
      · exact Or.inr (Or.inl h)
      · exact Or.inr (Or.inr h)
    · split
      · rename_i hlt heq
        simp only [List.map_cons, List.mem_cons] at h ⊢
        rcases h with h | h
        · exact Or.inl (h.trans heq.symm)
        · exact Or.inr h
      · simp only [List.map_cons, List.mem_cons] at h ⊢
        rcases h with h | h
        · exact Or.inl h
        · exact Or.inr (ih h)

namespace ImuCameraCalibrator

/-- The running pair of the `minmax_element` fold is bounded by, and drawn
from, the seed and the traversed elements. -/
theorem foldl_minmax_spec (xs : List ℚ) (a b : ℚ) :
    (((xs.foldl (fun p y => (min p.1 y, max p.2 y)) (a, b)).1 = a ∨
       (xs.foldl (fun p y => (min p.1 y, max p.2 y)) (a, b)).1 ∈ xs) ∧
      ((xs.foldl (fun p y => (min p.1 y, max p.2 y)) (a, b)).2 = b ∨
       (xs.foldl (fun p y => (min p.1 y, max p.2 y)) (a, b)).2 ∈ xs)) ∧
    (xs.foldl (fun p y => (min p.1 y, max p.2 y)) (a, b)).1 ≤ a ∧
    b ≤ (xs.foldl (fun p y => (min p.1 y, max p.2 y)) (a, b)).2 ∧
    ∀ x ∈ xs, (xs.foldl (fun p y => (min p.1 y, max p.2 y)) (a, b)).1 ≤ x ∧
      x ≤ (xs.foldl (fun p y => (min p.1 y, max p.2 y)) (a, b)).2 := by
  induction xs generalizing a b with
  | nil => simp
  | cons hd tl ih =>
    simp only [List.foldl_cons]
    obtain ⟨⟨hm1, hm2⟩, hle1, hle2, hall⟩ := ih (min a hd) (max b hd)
    refine ⟨⟨?_, ?_⟩, ?_, ?_, ?_⟩
    · rcases hm1 with h | h
      · rcases min_cases a hd with ⟨he, _⟩ | ⟨he, _⟩
        · exact Or.inl (h.trans he)
        · exact Or.inr (by simp [h.trans he])
      · exact Or.inr (List.mem_cons_of_mem _ h)
    · rcases hm2 with h | h
      · rcases max_cases b hd with ⟨he, _⟩ | ⟨he, _⟩
        · exact Or.inl (h.trans he)
        · exact Or.inr (by simp [h.trans he])
      · exact Or.inr (List.mem_cons_of_mem _ h)
    · exact hle1.trans (min_le_left _ _)
    · exact (le_max_left _ _).trans hle2
    · intro x hx
      rcases List.mem_cons.mp hx with h | h
      · subst h
        exact ⟨hle1.trans (min_le_right _ _), (le_max_right _ _).trans hle2⟩
      · exact hall x h

/-- On a nonempty range, `minmax_element` yields an element-wise smallest
and largest value of the range. -/
theorem minmaxElement_spec (l : List ℚ) (h : l ≠ []) :
    ∃ tmin tmax, minmaxElement l = some (tmin, tmax) ∧
      tmin ∈ l ∧ tmax ∈ l ∧ ∀ x ∈ l, tmin ≤ x ∧ x ≤ tmax := by
  match l with
  | [] => exact absurd rfl h
  | x :: xs =>
    obtain ⟨⟨hm1, hm2⟩, hle1, hle2, hall⟩ := foldl_minmax_spec xs x x
    refine ⟨_, _, rfl, ?_, ?_, ?_⟩
    · rcases hm1 with h' | h'
      · simp [h']
      · exact List.mem_cons_of_mem _ h'
    · rcases hm2 with h' | h'
      · simp [h']
      · exact List.mem_cons_of_mem _ h'
    · intro y hy
      rcases List.mem_cons.mp hy with h' | h'
      · subst h'
        exact ⟨hle1, hle2⟩
      · exact hall y h'

end ImuCameraCalibrator

namespace ImuCameraCalibrator

/-- Provenance of the accelerometer map built by the ingestion loop: every
entry is an old entry, or records some sample's exact corrected timestamp
and bias-corrected value, with the corrected timestamp inside the
half-open window. -/
theorem ingestAccl_snd_spec (toff : ℚ) (bias : Vec3) (t0 tend var : ℚ)
    (re : Bool) :
    ∀ (samples : List (ℚ × Vec3)) (tr : Trajectory) (m : List (ℚ × Vec3)),
      ∀ p ∈ (ingestAccl toff bias t0 tend var re samples (tr, m)).2,
        p ∈ m ∨ ∃ q ∈ samples, p.1 = q.1 * (1 / 1000) + toff ∧
          p.2 = q.2 + bias ∧ t0 ≤ p.1 ∧ p.1 < tend := by
  intro samples
  induction samples with
  | nil => intro tr m p hp; exact Or.inl hp
  | cons hd tl ih =>
    obtain ⟨ts, meas⟩ := hd
    intro tr m p hp
    rw [ingestAccl] at hp
    split at hp
    · rcases ih _ _ p hp with h | ⟨q, hq, h⟩
      · exact Or.inl h
      · exact Or.inr ⟨q, List.mem_cons_of_mem _ hq, h⟩
    · rename_i hwin
      push_neg at hwin
      rcases ih _ _ p hp with h | ⟨q, hq, h⟩
      · rcases mem_mapInsert _ _ _ _ p h with h' | h'
        · refine Or.inr ⟨(ts, meas), List.mem_cons_self _ _, ?_⟩
          rw [h']
          exact ⟨rfl, rfl, hwin.1, lt_of_not_le (by simpa using hwin.2)⟩
        · exact Or.inl h'
      · exact Or.inr ⟨q, List.mem_cons_of_mem _ hq, h⟩

/-- Keys present in the accelerometer map survive the ingestion loop. -/
theorem ingestAccl_key_mono (toff : ℚ) (bias : Vec3) (t0 tend var : ℚ)
    (re : Bool) :
    ∀ (samples : List (ℚ × Vec3)) (tr : Trajectory) (m : List (ℚ × Vec3))
      (k : ℚ), k ∈ m.map Prod.fst →
      k ∈ (ingestAccl toff bias t0 tend var re samples (tr, m)).2.map
        Prod.fst := by
  intro samples
  induction samples with
  | nil => intro tr m k hk; exact hk
  | cons hd tl ih =>
    obtain ⟨ts, meas⟩ := hd
    intro tr m k hk
    rw [ingestAccl]
    split
    · exact ih _ _ _ hk
    · exact ih _ _ _ (key_mem_mapInsert_of_mem _ _ _ _ _ hk)

/-- A sample whose corrected timestamp lies inside the window leaves its
corrected timestamp as a key of the accelerometer map. -/
theorem ingestAccl_key_mem (toff : ℚ) (bias : Vec3) (t0 tend var : ℚ)
    (re : Bool) :
    ∀ (samples : List (ℚ × Vec3)) (tr : Trajectory) (m : List (ℚ × Vec3))
      (q : ℚ × Vec3) (t : ℚ), q ∈ samples →
      q.1 * (1 / 1000) + toff = t →
      ¬(q.1 * (1 / 1000) + toff < t0 ∨ q.1 * (1 / 1000) + toff ≥ tend) →
      t ∈
        (ingestAccl toff bias t0 tend var re samples (tr, m)).2.map
          Prod.fst := by
  intro samples
  induction samples with
  | nil => intro tr m q t hq; simp at hq
  | cons hd tl ih =>
    obtain ⟨ts, meas⟩ := hd
    intro tr m q t hq ht hwin
    rcases List.mem_cons.mp hq with h | h
    · subst h
      subst ht
      rw [ingestAccl]
      split
      · exact absurd (by assumption) hwin
      · exact ingestAccl_key_mono _ _ _ _ _ _ _ _ _ _
          (key_mem_mapInsert_self _ _ _ _)
    · rw [ingestAccl]
      split
      · exact ih _ _ q t h ht hwin
      · exact ih _ _ q t h ht hwin

/-- The gyroscope ingestion loop builds exactly the same measurement map
as the accelerometer loop run on the same inputs; the two differ only in
which trajectory residual list they extend. -/
theorem ingestGyro_snd_eq (toff : ℚ) (bias : Vec3) (t0 tend var : ℚ)
    (re : Bool) :
    ∀ (samples : List (ℚ × Vec3)) (tr tr₁ : Trajectory)
      (m : List (ℚ × Vec3)),
      (ingestGyro toff bias t0 tend var re samples (tr, m)).2 =
      (ingestAccl toff bias t0 tend var re samples (tr₁, m)).2 := by
  intro samples
  induction samples with
  | nil => intro tr tr₁ m; rfl
  | cons hd tl ih =>
    obtain ⟨ts, meas⟩ := hd
    intro tr tr₁ m
    rw [ingestGyro, ingestAccl]
    split
    · exact ih _ _ _
    · exact ih _ _ _

end ImuCameraCalibrator

namespace ImuCameraCalibrator

/-- Provenance of the corner map built by the per-view ingestion loop:
every entry is an old entry, or carries the key and corner data of some
view whose timestamp passed the half-open window test. -/
theorem ingestViews_corners_spec (T : SE3) (t0 tend : ℚ) :
    ∀ (views : List View) (cs : List (TimeCamId × CalibCornerData))
      (ips sps : List (TimeCamId × CalibInitPoseData)),
      ∀ p ∈ (ingestViews T t0 tend views (cs, ips, sps)).1,
        p ∈ cs ∨ ∃ view ∈ views,
          ¬(view.timestamp ≥ tend ∨ view.timestamp < t0) ∧
          p.1 = ⟨cppToInt64 (view.timestamp * 1000000000), 0⟩ ∧
          p.2 = ⟨view.tracks.map Prod.snd, view.tracks.map Prod.fst⟩ := by
  intro views
  induction views with
  | nil => intro cs ips sps p hp; exact Or.inl hp
  | cons view rest ih =>
    intro cs ips sps p hp
    rw [ingestViews] at hp
    split at hp
    · rcases ih _ _ _ p hp with h | ⟨w, hw, h⟩
      · exact Or.inl h
      · exact Or.inr ⟨w, List.mem_cons_of_mem _ hw, h⟩
    · rename_i hwin
      rcases ih _ _ _ p hp with h | ⟨w, hw, h⟩
      · rcases mem_mapInsert _ _ _ _ p h with h' | h'
        · refine Or.inr ⟨view, List.mem_cons_self _ _, hwin, ?_, ?_⟩
          · rw [h']
          · rw [h']
        · exact Or.inl h'
      · exact Or.inr ⟨w, List.mem_cons_of_mem _ hw, h⟩

/-- Provenance of the initial-pose map built by the per-view ingestion
loop. -/
theorem ingestViews_init_poses_spec (T : SE3) (t0 tend : ℚ) :
    ∀ (views : List View) (cs : List (TimeCamId × CalibCornerData))
      (ips sps : List (TimeCamId × CalibInitPoseData)),
      ∀ p ∈ (ingestViews T t0 tend views (cs, ips, sps)).2.1,
        p ∈ ips ∨ ∃ view ∈ views,
          ¬(view.timestamp ≥ tend ∨ view.timestamp < t0) ∧
          p.1 = ⟨cppToInt64 (view.timestamp * 1000000000), 0⟩ ∧
          p.2 = ⟨⟨view.orientation.transpose, view.position⟩⟩ := by
  intro views
  induction views with
  | nil => intro cs ips sps p hp; exact Or.inl hp
  | cons view rest ih =>
    intro cs ips sps p hp
    rw [ingestViews] at hp
    split at hp
    · rcases ih _ _ _ p hp with h | ⟨w, hw, h⟩
      · exact Or.inl h
      · exact Or.inr ⟨w, List.mem_cons_of_mem _ hw, h⟩
    · rename_i hwin
      rcases ih _ _ _ p hp with h | ⟨w, hw, h⟩
      · rcases mem_mapInsert _ _ _ _ p h with h' | h'
        · refine Or.inr ⟨view, List.mem_cons_self _ _, hwin, ?_, ?_⟩
          · rw [h']
          · rw [h']
        · exact Or.inl h'
      · exact Or.inr ⟨w, List.mem_cons_of_mem _ hw, h⟩

/-- Provenance of the spline initialization pose map built by the per-view
ingestion loop: every entry is an old entry or keyed by some accepted
view's key. -/
theorem ingestViews_spline_poses_spec (T : SE3) (t0 tend : ℚ) :
    ∀ (views : List View) (cs : List (TimeCamId × CalibCornerData))
      (ips sps : List (TimeCamId × CalibInitPoseData)),
      ∀ p ∈ (ingestViews T t0 tend views (cs, ips, sps)).2.2,
        p ∈ sps ∨ ∃ view ∈ views,
          ¬(view.timestamp ≥ tend ∨ view.timestamp < t0) ∧
          p.1 = ⟨cppToInt64 (view.timestamp * 1000000000), 0⟩ := by
  intro views
  induction views with
  | nil => intro cs ips sps p hp; exact Or.inl hp
  | cons view rest ih =>
    intro cs ips sps p hp
    rw [ingestViews] at hp
    split at hp
    · rcases ih _ _ _ p hp with h | ⟨w, hw, h⟩
      · exact Or.inl h
      · exact Or.inr ⟨w, List.mem_cons_of_mem _ hw, h⟩
    · rename_i hwin
      rcases ih _ _ _ p hp with h | ⟨w, hw, h⟩
      · rcases hfind : mapFind
            (⟨cppToInt64 (view.timestamp * 1000000000), 0⟩ : TimeCamId)
            (mapInsert TimeCamId.blt
              ⟨cppToInt64 (view.timestamp * 1000000000), 0⟩
              (⟨⟨view.orientation.transpose, view.position⟩⟩ :
                CalibInitPoseData) ips) with hh | pd
        · rw [hfind] at h
          exact Or.inl h
        · rw [hfind] at h
          rcases mem_mapInsert _ _ _ _ p h with h' | h'
          · exact Or.inr ⟨view, List.mem_cons_self _ _, hwin, by rw [h']⟩
          · exact Or.inl h'
      · exact Or.inr ⟨w, List.mem_cons_of_mem _ hw, h⟩

/-- Corner keys survive the per-view ingestion loop. -/
theorem ingestViews_corner_key_mono (T : SE3) (t0 tend : ℚ) :
    ∀ (views : List View) (cs : List (TimeCamId × CalibCornerData))
      (ips sps : List (TimeCamId × CalibInitPoseData)) (k : TimeCamId),
      k ∈ cs.map Prod.fst →
      k ∈ (ingestViews T t0 tend views (cs, ips, sps)).1.map Prod.fst := by
  intro views
  induction views with
  | nil => intro cs ips sps k hk; exact hk
  | cons view rest ih =>
    intro cs ips sps k hk
    rw [ingestViews]
    split
    · exact ih _ _ _ _ hk
    · exact ih _ _ _ _ (key_mem_mapInsert_of_mem _ _ _ _ _ hk)

/-- A view whose timestamp passes the window test leaves its key in the
corner map. -/
theorem ingestViews_corner_key_mem (T : SE3) (t0 tend : ℚ) :
    ∀ (views : List View) (cs : List (TimeCamId × CalibCornerData))
      (ips sps : List (TimeCamId × CalibInitPoseData)) (view : View),
      view ∈ views → ¬(view.timestamp ≥ tend ∨ view.timestamp < t0) →
      (⟨cppToInt64 (view.timestamp * 1000000000), 0⟩ : TimeCamId) ∈
        (ingestViews T t0 tend views (cs, ips, sps)).1.map Prod.fst := by
  intro views
  induction views with
  | nil => intro cs ips sps view hv; simp at hv
  | cons hd rest ih =>
    intro cs ips sps view hv hwin
    rcases List.mem_cons.mp hv with h | h
    · subst h
      rw [ingestViews]
      split
      · exact absurd (by assumption) hwin
      · exact ingestViews_corner_key_mono _ _ _ _ _ _ _ _
          (key_mem_mapInsert_self _ _ _ _)
    · rw [ingestViews]
      split
      · exact ih _ _ _ view h hwin
      · exact ih _ _ _ view h hwin

/-- Provenance of the corner residual frame ids accumulated by the
corner-residual loop: every added frame id comes from a map entry whose
frame id lies inside the nanosecond window. -/
theorem addCorners_spec (start_t_ns end_t_ns : ℤ) :
    ∀ (corners : List (TimeCamId × CalibCornerData)) (tr : Trajectory),
      ∀ fid ∈ (addCorners start_t_ns end_t_ns tr corners).corner_meas,
        fid ∈ tr.corner_meas ∨ ∃ p ∈ corners, fid = p.1.frame_id ∧
          start_t_ns ≤ fid ∧ fid < end_t_ns := by
  intro corners
  induction corners with
  | nil => intro tr fid hf; exact Or.inl hf
  | cons kv rest ih =>
    intro tr fid hf
    rw [addCorners] at hf
    split at hf
    · rename_i hcond
      rcases ih _ fid hf with h | ⟨p, hp, h⟩
      · rw [Trajectory.addRSCornersMeasurement] at h
        rcases List.mem_append.mp h with h' | h'
        · exact Or.inl h'
        · refine Or.inr ⟨kv, List.mem_cons_self _ _, ?_⟩
          have : fid = kv.1.frame_id := by simpa using h'
          exact ⟨this, by rw [this]; exact hcond.1, by rw [this]; exact hcond.2⟩
      · exact Or.inr ⟨p, List.mem_cons_of_mem _ hp, h⟩
    · rcases ih _ fid hf with h | ⟨p, hp, h⟩
      · exact Or.inl h
      · exact Or.inr ⟨p, List.mem_cons_of_mem _ hp, h⟩

end ImuCameraCalibrator

namespace ImuCameraCalibrator

set_option maxHeartbeats 1600000 in
/-- Characterization of `InitSpline` on a clean calibrator and a nonempty
reconstruction: it succeeds and produces exactly `initSplineOutput`, with
`t0_s_`/`tend_s_` the `minmax_element` results over the sorted camera
timestamps. -/
theorem InitSpline_clean_spec (s : ImuCameraCalibrator)
    (hts : s.cam_timestamps_ = []) (hcc : s.calib_corners_ = [])
    (hip : s.calib_init_poses_ = []) (hsp : s.spline_init_poses_ = [])
    (ham : s.accl_measurements = []) (hgm : s.gyro_measurements = [])
    (htr : s.trajectory_ = Trajectory.empty)
    (calib_dataset : Reconstruction) (T_i_c_init : SE3)
    (spline_weight_data : SplineWeightingData) (toff : ℚ) (gb ab : Vec3)
    (tel : CameraTelemetryData) (hne : calib_dataset.views ≠ []) :
    ∃ tmin tmax,
      minmaxElement (List.insertionSort (fun a b => a ≤ b)
        (calib_dataset.views.map View.timestamp)) = some (tmin, tmax) ∧
      InitSpline s calib_dataset T_i_c_init spline_weight_data toff gb ab
        tel =
        .ok (initSplineOutput s.calibrate_cam_line_delay_
          s.reestimate_biases_ s.gravity_init_ s.gravity_initialized_
          calib_dataset T_i_c_init spline_weight_data toff gb ab tel
          tmin tmax) := by
  have hsort_ne : List.insertionSort (fun a b => a ≤ b)
      (calib_dataset.views.map View.timestamp) ≠ [] := by
    intro hcontra
    have := List.length_insertionSort (fun a b => a ≤ b)
      (calib_dataset.views.map View.timestamp)
    rw [hcontra] at this
    simp only [List.length_nil, List.length_map] at this
    exact hne (List.length_eq_zero.mp this.symm)
  obtain ⟨tmin, tmax, hmm, -, -, -⟩ := minmaxElement_spec _ hsort_ne
  refine ⟨tmin, tmax, hmm, ?_⟩
  obtain ⟨v, vs, hv⟩ : ∃ v vs, calib_dataset.views = v :: vs := by
    cases hvw : calib_dataset.views with
    | nil => exact absurd hvw hne
    | cons a l => exact ⟨a, l, rfl⟩
  rw [InitSpline]
  simp only [hts, List.nil_append, hcc, hip, hsp, ham, hgm, htr]
  cases hld : s.calibrate_cam_line_delay_ with
  | false =>
    simp only [hv, hld, if_false]
    rw [show (List.insertionSort (fun a b => a ≤ b)
        ((v :: vs).map View.timestamp)) =
      (List.insertionSort (fun a b => a ≤ b)
        (calib_dataset.views.map View.timestamp)) by rw [hv]]
    rw [hmm]
    rw [initSplineOutput]
    simp only [hv, hld, if_false]
    simp
  | true =>
    simp only [hv, hld, if_true]
    rw [show (List.insertionSort (fun a b => a ≤ b)
        ((v :: vs).map View.timestamp)) =
      (List.insertionSort (fun a b => a ≤ b)
        (calib_dataset.views.map View.timestamp)) by rw [hv]]
    rw [hmm]
    rw [initSplineOutput]
    simp only [hv, hld, if_true]

end ImuCameraCalibrator

namespace ImuCameraCalibrator

/-- Projection of the `InitSpline` output: window start. -/
theorem initSplineOutput_t0 (ld rb : Bool) (g0 : Vec3) (gf0 : Bool)
    (c : Reconstruction) (T : SE3) (swd : SplineWeightingData) (toff : ℚ)
    (gb ab : Vec3) (tel : CameraTelemetryData) (tmin tmax : ℚ) :
    (initSplineOutput ld rb g0 gf0 c T swd toff gb ab tel tmin tmax).t0_s_ =
      tmin := rfl

/-- Projection of the `InitSpline` output: window end. -/
theorem initSplineOutput_tend (ld rb : Bool) (g0 : Vec3) (gf0 : Bool)
    (c : Reconstruction) (T : SE3) (swd : SplineWeightingData) (toff : ℚ)
    (gb ab : Vec3) (tel : CameraTelemetryData) (tmin tmax : ℚ) :
    (initSplineOutput ld rb g0 gf0 c T swd toff gb ab tel tmin
      tmax).tend_s_ = tmax := rfl

/-- Projection of the `InitSpline` output: the stored camera timestamps
are the sorted input timestamps. -/
theorem initSplineOutput_cam_timestamps (ld rb : Bool) (g0 : Vec3)
    (gf0 : Bool) (c : Reconstruction) (T : SE3) (swd : SplineWeightingData)
    (toff : ℚ) (gb ab : Vec3) (tel : CameraTelemetryData) (tmin tmax : ℚ) :
    (initSplineOutput ld rb g0 gf0 c T swd toff gb ab tel tmin
      tmax).cam_timestamps_ =
      List.insertionSort (fun a b => a ≤ b) (c.views.map View.timestamp) :=
  rfl

/-- The accelerometer ingestion loop never touches the accumulated corner
residuals. -/
theorem ingestAccl_corner_meas (toff : ℚ) (bias : Vec3) (t0 tend var : ℚ)
    (re : Bool) :
    ∀ (samples : List (ℚ × Vec3)) (tr : Trajectory)
      (m : List (ℚ × Vec3)),
      (ingestAccl toff bias t0 tend var re samples (tr, m)).1.corner_meas =
        tr.corner_meas := by
  intro samples
  induction samples with
  | nil => intro tr m; rfl
  | cons hd tl ih =>
    obtain ⟨ts, meas⟩ := hd
    intro tr m
    rw [ingestAccl]
    split
    · exact ih _ _
    · rw [ih]
      rfl

/-- The gyroscope ingestion loop never touches the accumulated corner
residuals. -/
theorem ingestGyro_corner_meas (toff : ℚ) (bias : Vec3) (t0 tend var : ℚ)
    (re : Bool) :
    ∀ (samples : List (ℚ × Vec3)) (tr : Trajectory)
      (m : List (ℚ × Vec3)),
      (ingestGyro toff bias t0 tend var re samples (tr, m)).1.corner_meas =
        tr.corner_meas := by
  intro samples
  induction samples with
  | nil => intro tr m; rfl
  | cons hd tl ih =>
    obtain ⟨ts, meas⟩ := hd
    intro tr m
    rw [ingestGyro]
    split
    · exact ih _ _
    · rw [ih]
      rfl

/-- The corner-residual loop never touches the line delay. -/
theorem addCorners_line_delay (start_t_ns end_t_ns : ℤ) :
    ∀ (corners : List (TimeCamId × CalibCornerData)) (tr : Trajectory),
      (addCorners start_t_ns end_t_ns tr corners).line_delay =
        tr.line_delay := by
  intro corners
  induction corners with
  | nil => intro tr; rfl
  | cons kv rest ih =>
    intro tr
    rw [addCorners]
    split
    · rw [ih]
      rfl
    · exact ih _

/-- The accelerometer ingestion loop never touches the line delay. -/
theorem ingestAccl_line_delay (toff : ℚ) (bias : Vec3) (t0 tend var : ℚ)
    (re : Bool) :
    ∀ (samples : List (ℚ × Vec3)) (tr : Trajectory)
      (m : List (ℚ × Vec3)),
      (ingestAccl toff bias t0 tend var re samples (tr, m)).1.line_delay =
        tr.line_delay := by
  intro samples
  induction samples with
  | nil => intro tr m; rfl
  | cons hd tl ih =>
    obtain ⟨ts, meas⟩ := hd
    intro tr m
    rw [ingestAccl]
    split
    · exact ih _ _
    · rw [ih]
      rfl

/-- The gyroscope ingestion loop never touches the line delay. -/
theorem ingestGyro_line_delay (toff : ℚ) (bias : Vec3) (t0 tend var : ℚ)
    (re : Bool) :
    ∀ (samples : List (ℚ × Vec3)) (tr : Trajectory)
      (m : List (ℚ × Vec3)),
      (ingestGyro toff bias t0 tend var re samples (tr, m)).1.line_delay =
        tr.line_delay := by
  intro samples
  induction samples with
  | nil => intro tr m; rfl
  | cons hd tl ih =>
    obtain ⟨ts, meas⟩ := hd
    intro tr m
    rw [ingestGyro]
    split
    · exact ih _ _
    · rw [ih]
      rfl

/-- The accelerometer ingestion loop changes the trajectory only in its
accumulated accelerometer residual list. -/
theorem ingestAccl_fst_eq (toff : ℚ) (bias : Vec3) (t0 tend var : ℚ)
    (re : Bool) :
    ∀ (samples : List (ℚ × Vec3)) (tr : Trajectory)
      (m : List (ℚ × Vec3)),
      (ingestAccl toff bias t0 tend var re samples (tr, m)).1 =
        { tr with accel_meas :=
          (ingestAccl toff bias t0 tend var re samples
            (tr, m)).1.accel_meas } := by
  intro samples
  induction samples with
  | nil => intro tr m; rfl
  | cons hd tl ih =>
    obtain ⟨ts, meas⟩ := hd
    intro tr m
    rw [ingestAccl]
    split
    · exact ih _ _
    · rw [ih]
      rfl

/-- The gyroscope ingestion loop changes the trajectory only in its
accumulated gyroscope residual list. -/
theorem ingestGyro_fst_eq (toff : ℚ) (bias : Vec3) (t0 tend var : ℚ)
    (re : Bool) :
    ∀ (samples : List (ℚ × Vec3)) (tr : Trajectory)
      (m : List (ℚ × Vec3)),
      (ingestGyro toff bias t0 tend var re samples (tr, m)).1 =
        { tr with gyro_meas :=
          (ingestGyro toff bias t0 tend var re samples
            (tr, m)).1.gyro_meas } := by
  intro samples
  induction samples with
  | nil => intro tr m; rfl
  | cons hd tl ih =>
    obtain ⟨ts, meas⟩ := hd
    intro tr m
    rw [ingestGyro]
    split
    · exact ih _ _
    · rw [ih]
      rfl

/-- The corner-residual loop changes the trajectory only in its
accumulated corner residual list. -/
theorem addCorners_eq (start_t_ns end_t_ns : ℤ) :
    ∀ (corners : List (TimeCamId × CalibCornerData)) (tr : Trajectory),
      addCorners start_t_ns end_t_ns tr corners =
        { tr with corner_meas :=
          (addCorners start_t_ns end_t_ns tr corners).corner_meas } := by
  intro corners
  induction corners with
  | nil => intro tr; rfl
  | cons kv rest ih =>
    intro tr
    rw [addCorners]
    split
    · rw [ih]
      rfl
    · exact ih _

/-- The trajectory of the `InitSpline` output carries the line delay that
was handed to `SetInitialRSLineDelay`. -/
theorem initSplineOutput_trajectory_line_delay (ld rb : Bool) (g0 : Vec3)
    (gf0 : Bool) (c : Reconstruction) (T : SE3) (swd : SplineWeightingData)
    (toff : ℚ) (gb ab : Vec3) (tel : CameraTelemetryData) (tmin tmax : ℚ) :
    (initSplineOutput ld rb g0 gf0 c T swd toff gb ab tel tmin
      tmax).trajectory_.line_delay =
      (initSplineOutput ld rb g0 gf0 c T swd toff gb ab tel tmin
        tmax).inital_cam_line_delay_s_ := by
  show (ingestGyro _ _ _ _ _ _ _ _).1.line_delay = _
  rw [ingestGyro_line_delay, ingestAccl_line_delay, addCorners_line_delay]
  rfl

/-- The corner residuals of the `InitSpline` output all stem from entries
of the ingested corner map whose frame id lies inside the nanosecond
window. -/
theorem initSplineOutput_corner_meas (ld rb : Bool) (g0 : Vec3)
    (gf0 : Bool) (c : Reconstruction) (T : SE3) (swd : SplineWeightingData)
    (toff : ℚ) (gb ab : Vec3) (tel : CameraTelemetryData) (tmin tmax : ℚ) :
    ∀ fid ∈ (initSplineOutput ld rb g0 gf0 c T swd toff gb ab tel tmin
      tmax).trajectory_.corner_meas,
      ∃ p ∈ (ingestViews T tmin tmax c.views ([], [], [])).1,
        fid = p.1.frame_id ∧ cppToInt64 (tmin * 1000000000) ≤ fid ∧
        fid < cppToInt64 (tmax * 1000000000) := by
  intro fid hf
  simp only [initSplineOutput] at hf
  rw [ingestGyro_corner_meas, ingestAccl_corner_meas] at hf
  rcases addCorners_spec _ _ _ _ fid hf with h | ⟨p, hp, h⟩
  · simp [Trajectory.initAll, Trajectory.setT_i_c, Trajectory.setCalib,
      Trajectory.init_times, Trajectory.SetInitialRSLineDelay,
      Trajectory.empty] at h
  · exact ⟨p, hp, h⟩

end ImuCameraCalibrator

namespace ImuCameraCalibrator

/-- The sorted timestamp list of a nonempty reconstruction is nonempty. -/
theorem sorted_timestamps_ne_nil (calib_dataset : Reconstruction)
    (hne : calib_dataset.views ≠ []) :
    List.insertionSort (fun a b => a ≤ b)
      (calib_dataset.views.map View.timestamp) ≠ [] := by
  intro hcontra
  have := List.length_insertionSort (fun a b => a ≤ b)
    (calib_dataset.views.map View.timestamp)
  rw [hcontra] at this
  simp only [List.length_nil, List.length_map] at this
  exact hne (List.length_eq_zero.mp this.symm)

/-- Projection of the `InitSpline` output: the line delay member. -/
theorem initSplineOutput_delay (ld rb : Bool) (g0 : Vec3) (gf0 : Bool)
    (c : Reconstruction) (T : SE3) (swd : SplineWeightingData) (toff : ℚ)
    (gb ab : Vec3) (tel : CameraTelemetryData) (tmin tmax : ℚ) :
    (initSplineOutput ld rb g0 gf0 c T swd toff gb ab tel tmin
      tmax).inital_cam_line_delay_s_ =
      (if ld then
        match c.views with
        | [] => 0
        | v :: _ => (1 / swd.cam_fps) * (1 / v.image_height)
      else 0) := rfl

/-- Projection of the `InitSpline` output: the two knot counts, as the
truncating integer division of the nanosecond window length by the
nanosecond knot spacing, plus the spline order. -/
theorem initSplineOutput_knots (ld rb : Bool) (g0 : Vec3) (gf0 : Bool)
    (c : Reconstruction) (T : SE3) (swd : SplineWeightingData) (toff : ℚ)
    (gb ab : Vec3) (tel : CameraTelemetryData) (tmin tmax : ℚ) :
    (initSplineOutput ld rb g0 gf0 c T swd toff gb ab tel tmin
      tmax).nr_knots_so3_ =
      (cppToInt64 (tmax * 1000000000) -
        cppToInt64 (tmin * 1000000000)).tdiv
        (cppToInt64 (swd.dt_so3 * 1000000000)) + SPLINE_N ∧
    (initSplineOutput ld rb g0 gf0 c T swd toff gb ab tel tmin
      tmax).nr_knots_r3_ =
      (cppToInt64 (tmax * 1000000000) -
        cppToInt64 (tmin * 1000000000)).tdiv
        (cppToInt64 (swd.dt_r3 * 1000000000)) + SPLINE_N := ⟨rfl, rfl⟩

/-- C5: for every non-empty camera timestamp set, `InitSpline` succeeds,
stores the ascending sort of the camera timestamps, and derives `t0_s_`
as their minimum and `tend_s_` as their maximum. -/
theorem initSpline_sorts_and_takes_minmax (s : ImuCameraCalibrator)
    (hts : s.cam_timestamps_ = []) (hcc : s.calib_corners_ = [])
    (hip : s.calib_init_poses_ = []) (hsp : s.spline_init_poses_ = [])
    (ham : s.accl_measurements = []) (hgm : s.gyro_measurements = [])
    (htr : s.trajectory_ = Trajectory.empty)
    (calib_dataset : Reconstruction) (T_i_c_init : SE3)
    (swd : SplineWeightingData) (toff : ℚ) (gb ab : Vec3)
    (tel : CameraTelemetryData) (hne : calib_dataset.views ≠ []) :
    ∃ r, InitSpline s calib_dataset T_i_c_init swd toff gb ab tel = .ok r ∧
      r.cam_timestamps_ = List.insertionSort (fun a b => a ≤ b)
        (calib_dataset.views.map View.timestamp) ∧
      List.Sorted (fun a b => a ≤ b) r.cam_timestamps_ ∧
      r.t0_s_ ∈ calib_dataset.views.map View.timestamp ∧
      (∀ t ∈ calib_dataset.views.map View.timestamp, r.t0_s_ ≤ t) ∧
      r.tend_s_ ∈ calib_dataset.views.map View.timestamp ∧
      (∀ t ∈ calib_dataset.views.map View.timestamp, t ≤ r.tend_s_) := by
  obtain ⟨tmin, tmax, hmm, heq⟩ := InitSpline_clean_spec s hts hcc hip hsp
    ham hgm htr calib_dataset T_i_c_init swd toff gb ab tel hne
  obtain ⟨tmin', tmax', hmm', hmem₁, hmem₂, hall⟩ :=
    minmaxElement_spec _ (sorted_timestamps_ne_nil calib_dataset hne)
  rw [hmm] at hmm'
  obtain ⟨h₁, h₂⟩ : tmin = tmin' ∧ tmax = tmax' := by
    have := Option.some.inj hmm'
    exact ⟨congrArg Prod.fst this, congrArg Prod.snd this⟩
  subst h₁
  subst h₂
  refine ⟨_, heq, initSplineOutput_cam_timestamps _ _ _ _ _ _ _ _ _ _ _ _
    _, ?_, ?_, ?_, ?_, ?_⟩
  · rw [initSplineOutput_cam_timestamps]
    exact List.sorted_insertionSort _ _
  · rw [initSplineOutput_t0]
    exact (List.mem_insertionSort _).mp hmem₁
  · intro t ht
    rw [initSplineOutput_t0]
    exact (hall t ((List.mem_insertionSort _).mpr ht)).1
  · rw [initSplineOutput_tend]
    exact (List.mem_insertionSort _).mp hmem₂
  · intro t ht
    rw [initSplineOutput_tend]
    exact (hall t ((List.mem_insertionSort _).mpr ht)).2

/-- C8: the initial rolling-shutter line delay produced by `InitSpline` —
both the member and the value handed to the trajectory — is exactly 0
whenever line-delay calibration is disabled, for every frame rate and
image height; when enabled it is `(1/cam_fps) * (1/image_height)` of the
first view. -/
theorem initSpline_line_delay (s : ImuCameraCalibrator)
    (hts : s.cam_timestamps_ = []) (hcc : s.calib_corners_ = [])
    (hip : s.calib_init_poses_ = []) (hsp : s.spline_init_poses_ = [])
    (ham : s.accl_measurements = []) (hgm : s.gyro_measurements = [])
    (htr : s.trajectory_ = Trajectory.empty)
    (calib_dataset : Reconstruction) (T_i_c_init : SE3)
    (swd : SplineWeightingData) (toff : ℚ) (gb ab : Vec3)
    (tel : CameraTelemetryData) (v : View) (vs : List View)
    (hv : calib_dataset.views = v :: vs) :
    ∃ r, InitSpline s calib_dataset T_i_c_init swd toff gb ab tel = .ok r ∧
      r.trajectory_.line_delay = r.inital_cam_line_delay_s_ ∧
      (s.calibrate_cam_line_delay_ = false →
        r.inital_cam_line_delay_s_ = 0) ∧
      (s.calibrate_cam_line_delay_ = true →
        r.inital_cam_line_delay_s_ =
          (1 / swd.cam_fps) * (1 / v.image_height)) := by
  have hne : calib_dataset.views ≠ [] := by simp [hv]
  obtain ⟨tmin, tmax, hmm, heq⟩ := InitSpline_clean_spec s hts hcc hip hsp
    ham hgm htr calib_dataset T_i_c_init swd toff gb ab tel hne
  refine ⟨_, heq,
    initSplineOutput_trajectory_line_delay _ _ _ _ _ _ _ _ _ _ _ _ _, ?_, ?_⟩
  · intro hld
    rw [initSplineOutput_delay, hld, if_neg]
    exact Bool.false_ne_true
  · intro hld
    rw [initSplineOutput_delay, hld, if_pos rfl, hv]

/-- C7 (amended): after a successful `InitSpline`, each knot count equals
the truncating integer division (the floor, for the nonnegative window)
of the nanosecond window length by the nanosecond knot spacing — both
obtained by C++ `double`-to-`int64_t` truncation of the second-valued
quantities times 1e9 — plus the spline order; not the ceiling of the
seconds-valued ratio. -/
theorem initSpline_knot_counts (s : ImuCameraCalibrator)
    (hts : s.cam_timestamps_ = []) (hcc : s.calib_corners_ = [])
    (hip : s.calib_init_poses_ = []) (hsp : s.spline_init_poses_ = [])
    (ham : s.accl_measurements = []) (hgm : s.gyro_measurements = [])
    (htr : s.trajectory_ = Trajectory.empty)
    (calib_dataset : Reconstruction) (T_i_c_init : SE3)
    (swd : SplineWeightingData) (toff : ℚ) (gb ab : Vec3)
    (tel : CameraTelemetryData) (hne : calib_dataset.views ≠ []) :
    ∃ r, InitSpline s calib_dataset T_i_c_init swd toff gb ab tel = .ok r ∧
      r.nr_knots_so3_ =
        (cppToInt64 (r.tend_s_ * 1000000000) -
          cppToInt64 (r.t0_s_ * 1000000000)).tdiv
          (cppToInt64 (swd.dt_so3 * 1000000000)) + SPLINE_N ∧
      r.nr_knots_r3_ =
        (cppToInt64 (r.tend_s_ * 1000000000) -
          cppToInt64 (r.t0_s_ * 1000000000)).tdiv
          (cppToInt64 (swd.dt_r3 * 1000000000)) + SPLINE_N ∧
      r.trajectory_.nr_knots_so3 = r.nr_knots_so3_ ∧
      r.trajectory_.nr_knots_r3 = r.nr_knots_r3_ := by
  obtain ⟨tmin, tmax, hmm, heq⟩ := InitSpline_clean_spec s hts hcc hip hsp
    ham hgm htr calib_dataset T_i_c_init swd toff gb ab tel hne
  refine ⟨_, heq, ?_, ?_, ?_, ?_⟩
  · rw [initSplineOutput_t0, initSplineOutput_tend]
    exact (initSplineOutput_knots _ _ _ _ _ _ _ _ _ _ _ _ _).1
  · rw [initSplineOutput_t0, initSplineOutput_tend]
    exact (initSplineOutput_knots _ _ _ _ _ _ _ _ _ _ _ _ _).2
  · simp only [initSplineOutput]
    rw [ingestGyro_fst_eq, ingestAccl_fst_eq, addCorners_eq]
    rfl
  · simp only [initSplineOutput]
    rw [ingestGyro_fst_eq, ingestAccl_fst_eq, addCorners_eq]
    rfl

end ImuCameraCalibrator

namespace ImuCameraCalibrator

/-- Provenance of the gyroscope map built by the ingestion loop. -/
theorem ingestGyro_snd_spec (toff : ℚ) (bias : Vec3) (t0 tend var : ℚ)
    (re : Bool) :
    ∀ (samples : List (ℚ × Vec3)) (tr : Trajectory) (m : List (ℚ × Vec3)),
      ∀ p ∈ (ingestGyro toff bias t0 tend var re samples (tr, m)).2,
        p ∈ m ∨ ∃ q ∈ samples, p.1 = q.1 * (1 / 1000) + toff ∧
          p.2 = q.2 + bias ∧ t0 ≤ p.1 ∧ p.1 < tend := by
  intro samples tr m p hp
  rw [ingestGyro_snd_eq toff bias t0 tend var re samples tr tr m] at hp
  exact ingestAccl_snd_spec toff bias t0 tend var re samples tr m p hp

/-- A sample whose corrected timestamp lies inside the window leaves its
corrected timestamp as a key of the gyroscope map. -/
theorem ingestGyro_key_mem (toff : ℚ) (bias : Vec3) (t0 tend var : ℚ)
    (re : Bool) :
    ∀ (samples : List (ℚ × Vec3)) (tr : Trajectory) (m : List (ℚ × Vec3))
      (q : ℚ × Vec3) (t : ℚ), q ∈ samples →
      q.1 * (1 / 1000) + toff = t →
      ¬(q.1 * (1 / 1000) + toff < t0 ∨ q.1 * (1 / 1000) + toff ≥ tend) →
      t ∈
        (ingestGyro toff bias t0 tend var re samples (tr, m)).2.map
          Prod.fst := by
  intro samples tr m q t hq ht hwin
  rw [ingestGyro_snd_eq toff bias t0 tend var re samples tr tr m]
  exact ingestAccl_key_mem toff bias t0 tend var re samples tr m q t hq ht
    hwin

set_option maxHeartbeats 1600000 in
/-- C6: every measurement `InitSpline` stores lies in the half-open window
`[t0_s_, tend_s_)` and keeps its exact (corrected) timestamp — so a
measurement at exactly `tend_s_` is excluded and nothing is clamped — a
corner observation or inertial sample at exactly `t0_s_` is stored, and
out-of-window measurements are skipped while the call still succeeds. -/
theorem initSpline_half_open_window (s : ImuCameraCalibrator)
    (hts : s.cam_timestamps_ = []) (hcc : s.calib_corners_ = [])
    (hip : s.calib_init_poses_ = []) (hsp : s.spline_init_poses_ = [])
    (ham : s.accl_measurements = []) (hgm : s.gyro_measurements = [])
    (htr : s.trajectory_ = Trajectory.empty)
    (calib_dataset : Reconstruction) (T_i_c_init : SE3)
    (swd : SplineWeightingData) (toff : ℚ) (gb ab : Vec3)
    (tel : CameraTelemetryData) (hne : calib_dataset.views ≠ []) :
    ∃ r, InitSpline s calib_dataset T_i_c_init swd toff gb ab tel = .ok r ∧
      (∀ p ∈ r.accl_measurements, ∃ q ∈ tel.accelerometer.samples,
        p.1 = q.1 * (1 / 1000) + toff ∧ p.2 = q.2 + ab ∧
        r.t0_s_ ≤ p.1 ∧ p.1 < r.tend_s_) ∧
      (∀ q ∈ tel.accelerometer.samples,
        q.1 * (1 / 1000) + toff = r.t0_s_ → r.t0_s_ < r.tend_s_ →
        r.t0_s_ ∈ r.accl_measurements.map Prod.fst) ∧
      (∀ p ∈ r.gyro_measurements, ∃ q ∈ tel.gyroscope.samples,
        p.1 = q.1 * (1 / 1000) + toff ∧ p.2 = q.2 + gb ∧
        r.t0_s_ ≤ p.1 ∧ p.1 < r.tend_s_) ∧
      (∀ q ∈ tel.gyroscope.samples,
        q.1 * (1 / 1000) + toff = r.t0_s_ → r.t0_s_ < r.tend_s_ →
        r.t0_s_ ∈ r.gyro_measurements.map Prod.fst) ∧
      (∀ p ∈ r.calib_corners_, ∃ view ∈ calib_dataset.views,
        r.t0_s_ ≤ view.timestamp ∧ view.timestamp < r.tend_s_ ∧
        p.1 = ⟨cppToInt64 (view.timestamp * 1000000000), 0⟩ ∧
        p.2 = ⟨view.tracks.map Prod.snd, view.tracks.map Prod.fst⟩) ∧
      (∀ view ∈ calib_dataset.views, view.timestamp = r.t0_s_ →
        r.t0_s_ < r.tend_s_ →
        (⟨cppToInt64 (view.timestamp * 1000000000), 0⟩ : TimeCamId) ∈
          r.calib_corners_.map Prod.fst) := by
  obtain ⟨tmin, tmax, hmm, heq⟩ := InitSpline_clean_spec s hts hcc hip hsp
    ham hgm htr calib_dataset T_i_c_init swd toff gb ab tel hne
  refine ⟨_, heq, ?_, ?_, ?_, ?_, ?_, ?_⟩
  · intro p hp
    simp only [initSplineOutput, initSplineOutput_t0,
      initSplineOutput_tend] at hp ⊢
    rcases ingestAccl_snd_spec _ _ _ _ _ _ _ _ _ p hp with h | ⟨q, hq, h⟩
    · simp at h
    · exact ⟨q, hq, h⟩
  · intro q hq hqt hlt
    simp only [initSplineOutput, initSplineOutput_t0,
      initSplineOutput_tend] at hqt hlt ⊢
    exact ingestAccl_key_mem toff ab tmin tmax swd.var_r3
      s.reestimate_biases_ tel.accelerometer.samples _ [] q tmin hq hqt (by
        rw [hqt]
        push_neg
        exact ⟨le_refl _, hlt⟩)
  · intro p hp
    simp only [initSplineOutput, initSplineOutput_t0,
      initSplineOutput_tend] at hp ⊢
    rcases ingestGyro_snd_spec _ _ _ _ _ _ _ _ _ p hp with h | ⟨q, hq, h⟩
    · simp at h
    · exact ⟨q, hq, h⟩
  · intro q hq hqt hlt
    simp only [initSplineOutput, initSplineOutput_t0,
      initSplineOutput_tend] at hqt hlt ⊢
    exact ingestGyro_key_mem toff gb tmin tmax swd.var_so3
      s.reestimate_biases_ tel.gyroscope.samples _ [] q tmin hq hqt (by
        rw [hqt]
        push_neg
        exact ⟨le_refl _, hlt⟩)
  · intro p hp
    simp only [initSplineOutput, initSplineOutput_t0,
      initSplineOutput_tend] at hp ⊢
    rcases ingestViews_corners_spec _ _ _ _ _ _ _ p hp with h | ⟨w, hw, hwin, h⟩
    · simp at h
    · push_neg at hwin
      exact ⟨w, hw, hwin.2, lt_of_not_le (by simpa using hwin.1), h⟩
  · intro view hview hvt hlt
    simp only [initSplineOutput, initSplineOutput_t0,
      initSplineOutput_tend] at hvt hlt ⊢
    exact ingestViews_corner_key_mem _ _ _ _ _ _ _ view hview (by
      push_neg
      rw [hvt]
      exact ⟨not_le.mp (by simpa using not_le.mpr hlt), le_refl _⟩)

end ImuCameraCalibrator

namespace ImuCameraCalibrator

set_option maxHeartbeats 1600000 in
/-- C10: with at least two distinct camera timestamps, `tend_s_` is the
maximum camera timestamp, a view carrying that timestamp fails the
ingestion window test, and every stored corner entry, initial pose,
spline initialization pose, and every accumulated corner residual stems
from a view whose timestamp is strictly below `tend_s_` — so the frame at
the maximum timestamp is never ingested and contributes no reprojection
residual. -/
theorem initSpline_max_frame_never_ingested (s : ImuCameraCalibrator)
    (hts : s.cam_timestamps_ = []) (hcc : s.calib_corners_ = [])
    (hip : s.calib_init_poses_ = []) (hsp : s.spline_init_poses_ = [])
    (ham : s.accl_measurements = []) (hgm : s.gyro_measurements = [])
    (htr : s.trajectory_ = Trajectory.empty)
    (calib_dataset : Reconstruction) (T_i_c_init : SE3)
    (swd : SplineWeightingData) (toff : ℚ) (gb ab : Vec3)
    (tel : CameraTelemetryData) (hne : calib_dataset.views ≠ [])
    (hdist : ∃ v ∈ calib_dataset.views, ∃ w ∈ calib_dataset.views,
      v.timestamp ≠ w.timestamp) :
    ∃ r, InitSpline s calib_dataset T_i_c_init swd toff gb ab tel = .ok r ∧
      r.tend_s_ ∈ calib_dataset.views.map View.timestamp ∧
      (∀ t ∈ calib_dataset.views.map View.timestamp, t ≤ r.tend_s_) ∧
      (∀ view ∈ calib_dataset.views, view.timestamp = r.tend_s_ →
        ¬(r.t0_s_ ≤ view.timestamp ∧ view.timestamp < r.tend_s_)) ∧
      (∀ p ∈ r.calib_corners_, ∃ view ∈ calib_dataset.views,
        view.timestamp < r.tend_s_ ∧
        p.1 = ⟨cppToInt64 (view.timestamp * 1000000000), 0⟩) ∧
      (∀ p ∈ r.calib_init_poses_, ∃ view ∈ calib_dataset.views,
        view.timestamp < r.tend_s_ ∧
        p.1 = ⟨cppToInt64 (view.timestamp * 1000000000), 0⟩) ∧
      (∀ p ∈ r.spline_init_poses_, ∃ view ∈ calib_dataset.views,
        view.timestamp < r.tend_s_ ∧
        p.1 = ⟨cppToInt64 (view.timestamp * 1000000000), 0⟩) ∧
      (∀ fid ∈ r.trajectory_.corner_meas, ∃ view ∈ calib_dataset.views,
        view.timestamp < r.tend_s_ ∧
        fid = cppToInt64 (view.timestamp * 1000000000)) := by
  obtain ⟨tmin, tmax, hmm, heq⟩ := InitSpline_clean_spec s hts hcc hip hsp
    ham hgm htr calib_dataset T_i_c_init swd toff gb ab tel hne
  obtain ⟨tmin', tmax', hmm', hmem₁, hmem₂, hall⟩ :=
    minmaxElement_spec _ (sorted_timestamps_ne_nil calib_dataset hne)
  rw [hmm] at hmm'
  obtain ⟨h₁, h₂⟩ : tmin = tmin' ∧ tmax = tmax' := by
    have := Option.some.inj hmm'
    exact ⟨congrArg Prod.fst this, congrArg Prod.snd this⟩
  subst h₁
  subst h₂
  refine ⟨_, heq, ?_, ?_, ?_, ?_, ?_, ?_, ?_⟩
  · rw [initSplineOutput_tend]
    exact (List.mem_insertionSort _).mp hmem₂
  · intro t ht
    rw [initSplineOutput_tend]
    exact (hall t ((List.mem_insertionSort _).mpr ht)).2
  · intro view hv hvt
    rw [initSplineOutput_tend] at hvt
    rw [initSplineOutput_t0, initSplineOutput_tend, hvt]
    intro hcontra
    exact absurd hcontra.2 (lt_irrefl _)
  · intro p hp
    simp only [initSplineOutput, initSplineOutput_tend] at hp ⊢
    rcases ingestViews_corners_spec _ _ _ _ _ _ _ p hp with h |
      ⟨w, hw, hwin, hk, hd⟩
    · simp at h
    · push_neg at hwin
      exact ⟨w, hw, lt_of_not_le (by simpa using hwin.1), hk⟩
  · intro p hp
    simp only [initSplineOutput, initSplineOutput_tend] at hp ⊢
    rcases ingestViews_init_poses_spec _ _ _ _ _ _ _ p hp with h |
      ⟨w, hw, hwin, hk, hd⟩
    · simp at h
    · push_neg at hwin
      exact ⟨w, hw, lt_of_not_le (by simpa using hwin.1), hk⟩
  · intro p hp
    simp only [initSplineOutput, initSplineOutput_tend] at hp ⊢
    rcases ingestViews_spline_poses_spec _ _ _ _ _ _ _ p hp with h |
      ⟨w, hw, hwin, hk⟩
    · simp at h
    · push_neg at hwin
      exact ⟨w, hw, lt_of_not_le (by simpa using hwin.1), hk⟩
  · intro fid hf
    rw [initSplineOutput_tend]
    obtain ⟨p, hp, hfid, hlow, hhigh⟩ :=
      initSplineOutput_corner_meas _ _ _ _ _ _ _ _ _ _ _ _ _ fid hf
    rcases ingestViews_corners_spec _ _ _ _ _ _ _ p hp with h |
      ⟨w, hw, hwin, hk, hd⟩
    · simp at h
    · push_neg at hwin
      refine ⟨w, hw, lt_of_not_le (by simpa using hwin.1), ?_⟩
      rw [hfid, hk]

end ImuCameraCalibrator

namespace ImuCameraCalibrator

set_option maxHeartbeats 1600000 in
/-- C9 (amended): `ClearSpline` followed by `InitSpline` reproduces the
state a brand-new instance (same configuration flags) reaches through
`InitSpline` on the same inputs in every field except the two gravity
members, which survive `ClearSpline` unreset: the used instance keeps its
old `gravity_init_` and `gravity_initialized_`. -/
theorem initSpline_clear_eq_fresh_except_gravity (s : ImuCameraCalibrator)
    (calib_dataset : Reconstruction) (T_i_c_init : SE3)
    (swd : SplineWeightingData) (toff : ℚ) (gb ab : Vec3)
    (tel : CameraTelemetryData) (hne : calib_dataset.views ≠ []) :
    ∃ r, InitSpline (ImuCameraCalibrator.mk0 s.calibrate_cam_line_delay_
        s.reestimate_biases_) calib_dataset T_i_c_init swd toff gb ab tel =
        .ok r ∧
      InitSpline (ClearSpline s) calib_dataset T_i_c_init swd toff gb ab
        tel =
        .ok { r with gravity_init_ := s.gravity_init_,
                     gravity_initialized_ := s.gravity_initialized_ } := by
  obtain ⟨tmin, tmax, hmm, heq₁⟩ := InitSpline_clean_spec (ClearSpline s)
    rfl rfl rfl rfl rfl rfl rfl calib_dataset T_i_c_init swd toff gb ab
    tel hne
  obtain ⟨tmin', tmax', hmm', heq₂⟩ := InitSpline_clean_spec
    (ImuCameraCalibrator.mk0 s.calibrate_cam_line_delay_
      s.reestimate_biases_) rfl rfl rfl rfl rfl rfl rfl calib_dataset
    T_i_c_init swd toff gb ab tel hne
  rw [hmm] at hmm'
  obtain ⟨h₁, h₂⟩ : tmin = tmin' ∧ tmax = tmax' := by
    have := Option.some.inj hmm'
    exact ⟨congrArg Prod.fst this, congrArg Prod.snd this⟩
  subst h₁
  subst h₂
  refine ⟨_, heq₂, ?_⟩
  rw [heq₁]
  rfl

end ImuCameraCalibrator

/-- Unfolding of `Vec3` addition into components. -/
theorem Vec3.add_def (a b : Vec3) :
    a + b = ⟨a.x + b.x, a.y + b.y, a.z + b.z⟩ := rfl

namespace ImuCameraCalibrator

/-- Evaluation of the sorted minmax over the two-frame reconstruction. -/
theorem recon2_minmax : minmaxElement (List.insertionSort (fun a b => a ≤ b)
    (recon2.views.map View.timestamp)) = some (10, 11) := by
  norm_num [recon2, view10, view11, List.insertionSort, List.orderedInsert,
    minmaxElement]

/-- Evaluation of `InitSpline` on a fresh calibrator and the two-frame
reconstruction, for any telemetry. -/
theorem initSpline_recon2_eval (tel : CameraTelemetryData) :
    InitSpline (ImuCameraCalibrator.mk0 false false) recon2 SE3.id swd0 0
      Vec3.zero Vec3.zero tel =
      .ok (initSplineOutput false false Vec3.zero false recon2 SE3.id swd0
        0 Vec3.zero Vec3.zero tel 10 11) := by
  obtain ⟨tmin, tmax, hmm, heq⟩ := InitSpline_clean_spec
    (ImuCameraCalibrator.mk0 false false) rfl rfl rfl rfl rfl rfl rfl
    recon2 SE3.id swd0 0 Vec3.zero Vec3.zero tel (by simp [recon2])
  rw [recon2_minmax] at hmm
  obtain ⟨h₁, h₂⟩ : (10 : ℚ) = tmin ∧ (11 : ℚ) = tmax := by
    have := Option.some.inj hmm
    exact ⟨congrArg Prod.fst this, congrArg Prod.snd this⟩
  rw [← h₁, ← h₂] at heq
  exact heq

/-- The initial-pose map of that run: only the t = 10 s frame is ingested
(the t = 11 s frame sits at `tend_s_` and is excluded). -/
theorem initSpline_recon2_poses (tel : CameraTelemetryData) :
    (initSplineOutput false false Vec3.zero false recon2 SE3.id swd0 0
      Vec3.zero Vec3.zero tel 10 11).calib_init_poses_ =
      [(⟨10000000000, 0⟩, ⟨SE3.id⟩)] := by
  have e1 : cppToInt64 ((10000000000 : ℚ)) = 10000000000 := by
    rw [cppToInt64_eq_floor _ (by norm_num)]
    norm_num
  simp only [initSplineOutput]
  norm_num [recon2, view10, view11, ingestViews, mapInsert, mapFind, e1,
    SE3.id, Mat3.id, Mat3.transpose, Vec3.zero]

/-- The used instance of the C9 scenario really has its gravity flag
set: the sample at 10.02 s matches the camera timestamp 10 s. -/
theorem usedCalib_gravity_flag : usedCalib.gravity_initialized_ = true := by
  have e1 : cppToInt64 ((10000000000 : ℚ)) = 10000000000 := by
    rw [cppToInt64_eq_floor _ (by norm_num)]
    norm_num
  have e1b : cppToInt64 ((11000000000 : ℚ)) = 11000000000 := by
    rw [cppToInt64_eq_floor _ (by norm_num)]
    norm_num
  have e2 : cppToInt64 ((501 : ℚ) / 50) = 10 := by
    rw [cppToInt64_eq_floor _ (by norm_num)]
    norm_num
  rw [usedCalib, InitializeGravity]
  rw [initSpline_recon2_poses telMatch]
  simp only [initSplineOutput]
  norm_num [recon2, view10, view11, List.insertionSort, List.orderedInsert,
    mapFind, e1, e1b, e2, abs_lt, scanAcclForGravity,
    ImuSensorStream.samples, telMatch, SE3.mul, SE3.inverse, SE3.id,
    Mat3.id, Mat3.transpose, Mat3.mul, Mat3.mulVec, Vec3.zero,
    Vec3.add_def, Vec3.neg, List.zip]

/-- C1: on an empty reconstruction, `InitSpline` does not detect the
empty camera timestamp set; it first overwrites `spline_weight_data_` and
`T_i_c_init_` and only then runs into the undefined indexing of the empty
timestamp vector (modelled as the error outcome), in both line-delay
configurations — so the failure is neither a checked precondition nor
prior to mutation. -/
theorem initSpline_empty_mutates_before_undefined_indexing :
    InitSpline (ImuCameraCalibrator.mk0 false false) reconEmpty SE3.id
      swd0 0 Vec3.zero Vec3.zero telEmpty =
      .error { ImuCameraCalibrator.mk0 false false with
        spline_weight_data_ := swd0, T_i_c_init_ := SE3.id } ∧
    InitSpline (ImuCameraCalibrator.mk0 true false) reconEmpty SE3.id
      swd0 0 Vec3.zero Vec3.zero telEmpty =
      .error { ImuCameraCalibrator.mk0 true false with
        spline_weight_data_ := swd0, T_i_c_init_ := SE3.id } ∧
    swd0 ≠ (ImuCameraCalibrator.mk0 false false).spline_weight_data_ := by
  refine ⟨rfl, rfl, ?_⟩
  intro h
  have := congrArg SplineWeightingData.cam_fps h
  norm_num [swd0, ImuCameraCalibrator.mk0] at this

/-- C2: with the only accelerometer sample far from every camera
timestamp, `InitializeGravity` leaves the gravity flag unset, yet it
still unconditionally pushes the never-assigned default gravity vector
into the trajectory via `setG`, and `Optimize` then invokes the solver
without any gravity-initialized check. -/
theorem optimize_proceeds_with_uninitialized_gravity :
    ∃ r, InitSpline (ImuCameraCalibrator.mk0 false false) recon2 SE3.id
      swd0 0 Vec3.zero Vec3.zero telMiss = .ok r ∧
      (InitializeGravity r telMiss Vec3.zero).gravity_initialized_ =
        false ∧
      (InitializeGravity r telMiss Vec3.zero).gravity_init_ = Vec3.zero ∧
      (InitializeGravity r telMiss Vec3.zero).trajectory_.g = Vec3.zero ∧
      (Optimize (InitializeGravity r telMiss Vec3.zero)
        10).1.trajectory_.optimize_calls =
        (InitializeGravity r telMiss
          Vec3.zero).trajectory_.optimize_calls + 1 := by
  have e1 : cppToInt64 ((10000000000 : ℚ)) = 10000000000 := by
    rw [cppToInt64_eq_floor _ (by norm_num)]
    norm_num
  have e1b : cppToInt64 ((11000000000 : ℚ)) = 11000000000 := by
    rw [cppToInt64_eq_floor _ (by norm_num)]
    norm_num
  have e2 : cppToInt64 ((25 : ℚ)) = 25 := by
    rw [cppToInt64_eq_floor _ (by norm_num)]
    norm_num
  refine ⟨_, initSpline_recon2_eval telMiss, ?_, ?_, ?_, rfl⟩ <;>
    (rw [InitializeGravity]
     rw [initSpline_recon2_poses telMiss]
     simp only [initSplineOutput]
     norm_num [recon2, view10, view11, List.insertionSort,
       List.orderedInsert, mapFind, e1, e1b, e2, abs_lt,
       scanAcclForGravity, ImuSensorStream.samples, telMiss, SE3.mul,
       SE3.inverse, SE3.id, Mat3.id, Mat3.transpose, Mat3.mul,
       Mat3.mulVec, Vec3.zero, Vec3.add_def, Vec3.neg, List.zip,
       Trajectory.setG])

end ImuCameraCalibrator

namespace ImuCameraCalibrator

/-- C3: in the spec's gravity test scenario (one camera timestamp 10.0 s,
identity registered pose, identity extrinsic), the sample at 10.02 s
initializes gravity to (0, 0, 9.81) as the spec states — but the sample
at 10.5 s, which the spec requires to leave gravity uninitialized, also
initializes gravity to (0, 0, 9.81): the code truncates the sample
timestamp to whole seconds (`int64_t accl_t`) before the 1/30 s
tolerance test, so 10.5 s compares as 10 s. -/
theorem initializeGravity_truncation_matches_half_second_sample :
    (InitializeGravity c3State telMatch Vec3.zero).gravity_initialized_ =
      true ∧
    (InitializeGravity c3State telMatch Vec3.zero).gravity_init_ =
      ⟨0, 0, 981/100⟩ ∧
    (InitializeGravity c3State telHalfOff Vec3.zero).gravity_initialized_ =
      true ∧
    (InitializeGravity c3State telHalfOff Vec3.zero).gravity_init_ =
      ⟨0, 0, 981/100⟩ := by
  have e1 : cppToInt64 ((10000000000 : ℚ)) = 10000000000 := by
    rw [cppToInt64_eq_floor _ (by norm_num)]
    norm_num
  have e2 : cppToInt64 ((501 : ℚ) / 50) = 10 := by
    rw [cppToInt64_eq_floor _ (by norm_num)]
    norm_num
  have e3 : cppToInt64 ((21 : ℚ) / 2) = 10 := by
    rw [cppToInt64_eq_floor _ (by norm_num)]
    norm_num
  refine ⟨?_, ?_, ?_, ?_⟩ <;>
    (rw [InitializeGravity]
     simp only [c3State, ImuCameraCalibrator.mk0]
     simp only [List.foldl, mapFind, scanAcclForGravity,
       ImuSensorStream.samples, telMatch, telHalfOff]
     norm_num [e1, e2, e3, abs_lt, scanAcclForGravity, mapFind, SE3.mul,
       SE3.inverse, SE3.id, Mat3.id, Mat3.transpose, Mat3.mul, Mat3.mulVec,
       Vec3.zero, Vec3.add_def, Vec3.neg, List.zip])

/-- C4: the camera timestamp 10.99 s has a registered pose under its
nanosecond key, and the accelerometer sample at 10.97 s lies within the
1/30 s tolerance of it (|10.97 − 10.99| = 0.02 < 1/30), yet
`InitializeGravity` leaves gravity uninitialized: the truncated sample
timestamp 10 differs from 10.99 by far more than the tolerance, so the
genuine match is missed and no gravity assignment happens at all. -/
theorem initializeGravity_misses_true_tolerance_match :
    |(10970 * (1 / 1000) : ℚ) - 1099/100| < 1/30 ∧
    cppToInt64 ((1099/100 : ℚ) * 1000000000) = 10990000000 ∧
    mapFind (⟨10990000000, 0⟩ : TimeCamId) c4State.calib_init_poses_ =
      some ⟨SE3.id⟩ ∧
    (InitializeGravity c4State telC4 Vec3.zero).gravity_initialized_ =
      false ∧
    (InitializeGravity c4State telC4 Vec3.zero).gravity_init_ =
      Vec3.zero := by
  have e1 : cppToInt64 ((10990000000 : ℚ)) = 10990000000 := by
    rw [cppToInt64_eq_floor _ (by norm_num)]
    norm_num
  have e1b : cppToInt64 ((1099 : ℚ) / 100 * 1000000000) = 10990000000 := by
    rw [cppToInt64_eq_floor _ (by norm_num)]
    norm_num
  have e2 : cppToInt64 ((1097 : ℚ) / 100) = 10 := by
    rw [cppToInt64_eq_floor _ (by norm_num)]
    norm_num
  refine ⟨?_, ?_, ?_, ?_, ?_⟩
  · rw [abs_lt]
    constructor <;> norm_num
  · exact e1b
  · simp [c4State, mapFind]
  all_goals
    (rw [InitializeGravity]
     simp only [c4State, ImuCameraCalibrator.mk0]
     simp only [List.foldl, mapFind, scanAcclForGravity,
       ImuSensorStream.samples, telC4]
     norm_num [e1, e1b, e2, abs_lt, scanAcclForGravity, mapFind, SE3.mul,
       SE3.inverse, SE3.id, Mat3.id, Mat3.transpose, Mat3.mul, Mat3.mulVec,
       Vec3.zero, Vec3.add_def, Vec3.neg, List.zip])

end ImuCameraCalibrator

namespace ImuCameraCalibrator

/-- C7 counterexample: with camera timestamps 0 s and 1.5 s and 1 s knot
spacing, `InitSpline` allocates ⌊1.5/1⌋ + order = 1 + order knots, not
the claimed ⌈1.5/1⌉ + order = 2 + order. -/
theorem initSpline_knot_count_not_ceiling :
    ∃ r, InitSpline (ImuCameraCalibrator.mk0 false false) recon7 SE3.id
      swd0 0 Vec3.zero Vec3.zero telEmpty = .ok r ∧
      r.t0_s_ = 0 ∧ r.tend_s_ = 3/2 ∧ swd0.dt_so3 = 1 ∧
      r.nr_knots_so3_ = 1 + SPLINE_N ∧
      ⌈(r.tend_s_ - r.t0_s_) / swd0.dt_so3⌉ + SPLINE_N = 2 + SPLINE_N ∧
      r.nr_knots_so3_ ≠ ⌈(r.tend_s_ - r.t0_s_) / swd0.dt_so3⌉ +
        SPLINE_N := by
  have hmmx : minmaxElement (List.insertionSort (fun a b => a ≤ b)
      (recon7.views.map View.timestamp)) = some (0, 3/2) := by
    norm_num [recon7, view0, viewHalf, List.insertionSort,
      List.orderedInsert, minmaxElement]
  obtain ⟨tmin, tmax, hmm, heq⟩ := InitSpline_clean_spec
    (ImuCameraCalibrator.mk0 false false) rfl rfl rfl rfl rfl rfl rfl
    recon7 SE3.id swd0 0 Vec3.zero Vec3.zero telEmpty (by simp [recon7])
  rw [hmmx] at hmm
  obtain ⟨h₁, h₂⟩ : (0 : ℚ) = tmin ∧ (3/2 : ℚ) = tmax := by
    have := Option.some.inj hmm
    exact ⟨congrArg Prod.fst this, congrArg Prod.snd this⟩
  rw [← h₁, ← h₂] at heq
  have eA : cppToInt64 ((0 : ℚ) * 1000000000) = 0 := by
    rw [cppToInt64_eq_floor _ (by norm_num)]
    norm_num
  have eB : cppToInt64 ((3 : ℚ)/2 * 1000000000) = 1500000000 := by
    rw [cppToInt64_eq_floor _ (by norm_num)]
    norm_num
  have eC : cppToInt64 (swd0.dt_so3 * 1000000000) = 1000000000 := by
    rw [cppToInt64_eq_floor _ (by norm_num [swd0])]
    norm_num [swd0]
  refine ⟨_, heq, initSplineOutput_t0 _ _ _ _ _ _ _ _ _ _ _ _ _,
    initSplineOutput_tend _ _ _ _ _ _ _ _ _ _ _ _ _, rfl, ?_, ?_, ?_⟩
  · rw [(initSplineOutput_knots _ _ _ _ _ _ _ _ _ _ _ _ _).1, eA, eB, eC]
    norm_num [SPLINE_N, Int.tdiv]
  · rw [initSplineOutput_t0, initSplineOutput_tend]
    rw [show ((3 : ℚ)/2 - 0) / swd0.dt_so3 = 3/2 by norm_num [swd0]]
    rw [show ⌈(3/2 : ℚ)⌉ = 2 by
      rw [Int.ceil_eq_iff]
      constructor <;> norm_num]
  · rw [(initSplineOutput_knots _ _ _ _ _ _ _ _ _ _ _ _ _).1, eA, eB, eC,
      initSplineOutput_t0, initSplineOutput_tend]
    rw [show ((3 : ℚ)/2 - 0) / swd0.dt_so3 = 3/2 by norm_num [swd0]]
    rw [show ⌈(3/2 : ℚ)⌉ = 2 by
      rw [Int.ceil_eq_iff]
      constructor <;> norm_num]
    norm_num [SPLINE_N, Int.tdiv]

set_option maxHeartbeats 1600000 in
/-- C9 counterexample: a used calibrator whose gravity flag was set by
`InitializeGravity` keeps that flag through `ClearSpline`, so
`ClearSpline` followed by `InitSpline` differs from `InitSpline` on a
brand-new instance with the same inputs: the two resulting states
disagree on `gravity_initialized_`. -/
theorem clearSpline_keeps_stale_gravity_flag :
    usedCalib.gravity_initialized_ = true ∧
    InitSpline (ImuCameraCalibrator.mk0 false false) recon2 SE3.id swd0 0
      Vec3.zero Vec3.zero telMatch =
      .ok (initSplineOutput false false Vec3.zero false recon2 SE3.id swd0
        0 Vec3.zero Vec3.zero telMatch 10 11) ∧
    ∃ r₁ r₂,
      InitSpline (ClearSpline usedCalib) recon2 SE3.id swd0 0 Vec3.zero
        Vec3.zero telMatch = .ok r₁ ∧
      InitSpline (ImuCameraCalibrator.mk0 false false) recon2 SE3.id swd0
        0 Vec3.zero Vec3.zero telMatch = .ok r₂ ∧
      r₁.gravity_initialized_ = true ∧ r₂.gravity_initialized_ = false ∧
      r₁ ≠ r₂ := by
  refine ⟨usedCalib_gravity_flag, initSpline_recon2_eval telMatch, ?_⟩
  obtain ⟨tmin, tmax, hmm, heq⟩ := InitSpline_clean_spec
    (ClearSpline usedCalib) rfl rfl rfl rfl rfl rfl rfl recon2 SE3.id
    swd0 0 Vec3.zero Vec3.zero telMatch (by simp [recon2])
  rw [recon2_minmax] at hmm
  obtain ⟨h₁, h₂⟩ : (10 : ℚ) = tmin ∧ (11 : ℚ) = tmax := by
    have := Option.some.inj hmm
    exact ⟨congrArg Prod.fst this, congrArg Prod.snd this⟩
  rw [← h₁, ← h₂] at heq
  refine ⟨_, _, heq, initSpline_recon2_eval telMatch,
    usedCalib_gravity_flag, rfl, ?_⟩
  intro hcontra
  have h1 : (initSplineOutput
      (ClearSpline usedCalib).calibrate_cam_line_delay_
      (ClearSpline usedCalib).reestimate_biases_
      (ClearSpline usedCalib).gravity_init_
      (ClearSpline usedCalib).gravity_initialized_ recon2 SE3.id swd0 0
      Vec3.zero Vec3.zero telMatch 10 11).gravity_initialized_ = true :=
    usedCalib_gravity_flag
  rw [hcontra] at h1
  exact absurd h1 Bool.false_ne_true

end ImuCameraCalibrator

namespace ImuCameraCalibrator

/-- Witness for C5 at a concrete two-frame reconstruction. -/
theorem initSpline_sorts_and_takes_minmax_witness :
    ∃ r, InitSpline (ImuCameraCalibrator.mk0 false false) recon2 SE3.id
      swd0 0 Vec3.zero Vec3.zero telEmpty = .ok r ∧
      r.cam_timestamps_ = List.insertionSort (fun a b => a ≤ b)
        (recon2.views.map View.timestamp) ∧
      List.Sorted (fun a b => a ≤ b) r.cam_timestamps_ ∧
      r.t0_s_ ∈ recon2.views.map View.timestamp ∧
      (∀ t ∈ recon2.views.map View.timestamp, r.t0_s_ ≤ t) ∧
      r.tend_s_ ∈ recon2.views.map View.timestamp ∧
      (∀ t ∈ recon2.views.map View.timestamp, t ≤ r.tend_s_) :=
  initSpline_sorts_and_takes_minmax (ImuCameraCalibrator.mk0 false false)
    rfl rfl rfl rfl rfl rfl rfl recon2 SE3.id swd0 0 Vec3.zero Vec3.zero
    telEmpty (by simp [recon2])

/-- Witness for C6 at a concrete two-frame reconstruction with one
accelerometer sample. -/
theorem initSpline_half_open_window_witness :
    ∃ r, InitSpline (ImuCameraCalibrator.mk0 false false) recon2 SE3.id
      swd0 0 Vec3.zero Vec3.zero telMatch = .ok r ∧
      (∀ p ∈ r.accl_measurements, ∃ q ∈ telMatch.accelerometer.samples,
        p.1 = q.1 * (1 / 1000) + 0 ∧ p.2 = q.2 + Vec3.zero ∧
        r.t0_s_ ≤ p.1 ∧ p.1 < r.tend_s_) ∧
      (∀ q ∈ telMatch.accelerometer.samples,
        q.1 * (1 / 1000) + 0 = r.t0_s_ → r.t0_s_ < r.tend_s_ →
        r.t0_s_ ∈ r.accl_measurements.map Prod.fst) ∧
      (∀ p ∈ r.gyro_measurements, ∃ q ∈ telMatch.gyroscope.samples,
        p.1 = q.1 * (1 / 1000) + 0 ∧ p.2 = q.2 + Vec3.zero ∧
        r.t0_s_ ≤ p.1 ∧ p.1 < r.tend_s_) ∧
      (∀ q ∈ telMatch.gyroscope.samples,
        q.1 * (1 / 1000) + 0 = r.t0_s_ → r.t0_s_ < r.tend_s_ →
        r.t0_s_ ∈ r.gyro_measurements.map Prod.fst) ∧
      (∀ p ∈ r.calib_corners_, ∃ view ∈ recon2.views,
        r.t0_s_ ≤ view.timestamp ∧ view.timestamp < r.tend_s_ ∧
        p.1 = ⟨cppToInt64 (view.timestamp * 1000000000), 0⟩ ∧
        p.2 = ⟨view.tracks.map Prod.snd, view.tracks.map Prod.fst⟩) ∧
      (∀ view ∈ recon2.views, view.timestamp = r.t0_s_ →
        r.t0_s_ < r.tend_s_ →
        (⟨cppToInt64 (view.timestamp * 1000000000), 0⟩ : TimeCamId) ∈
          r.calib_corners_.map Prod.fst) :=
  initSpline_half_open_window (ImuCameraCalibrator.mk0 false false) rfl
    rfl rfl rfl rfl rfl rfl recon2 SE3.id swd0 0 Vec3.zero Vec3.zero
    telMatch (by simp [recon2])

/-- Witness for the amended C7 at a concrete reconstruction. -/
theorem initSpline_knot_counts_witness :
    ∃ r, InitSpline (ImuCameraCalibrator.mk0 false false) recon7 SE3.id
      swd0 0 Vec3.zero Vec3.zero telEmpty = .ok r ∧
      r.nr_knots_so3_ =
        (cppToInt64 (r.tend_s_ * 1000000000) -
          cppToInt64 (r.t0_s_ * 1000000000)).tdiv
          (cppToInt64 (swd0.dt_so3 * 1000000000)) + SPLINE_N ∧
      r.nr_knots_r3_ =
        (cppToInt64 (r.tend_s_ * 1000000000) -
          cppToInt64 (r.t0_s_ * 1000000000)).tdiv
          (cppToInt64 (swd0.dt_r3 * 1000000000)) + SPLINE_N ∧
      r.trajectory_.nr_knots_so3 = r.nr_knots_so3_ ∧
      r.trajectory_.nr_knots_r3 = r.nr_knots_r3_ :=
  initSpline_knot_counts (ImuCameraCalibrator.mk0 false false) rfl rfl
    rfl rfl rfl rfl rfl recon7 SE3.id swd0 0 Vec3.zero Vec3.zero telEmpty
    (by simp [recon7])

/-- Witness for C8 at a concrete reconstruction, in both flag settings. -/
theorem initSpline_line_delay_witness :
    (∃ r, InitSpline (ImuCameraCalibrator.mk0 false false) recon2 SE3.id
      swd0 0 Vec3.zero Vec3.zero telEmpty = .ok r ∧
      r.trajectory_.line_delay = r.inital_cam_line_delay_s_ ∧
      ((ImuCameraCalibrator.mk0 false false).calibrate_cam_line_delay_ =
        false → r.inital_cam_line_delay_s_ = 0) ∧
      ((ImuCameraCalibrator.mk0 false false).calibrate_cam_line_delay_ =
        true → r.inital_cam_line_delay_s_ =
          (1 / swd0.cam_fps) * (1 / view10.image_height))) ∧
    (∃ r, InitSpline (ImuCameraCalibrator.mk0 true false) recon2 SE3.id
      swd0 0 Vec3.zero Vec3.zero telEmpty = .ok r ∧
      r.trajectory_.line_delay = r.inital_cam_line_delay_s_ ∧
      ((ImuCameraCalibrator.mk0 true false).calibrate_cam_line_delay_ =
        false → r.inital_cam_line_delay_s_ = 0) ∧
      ((ImuCameraCalibrator.mk0 true false).calibrate_cam_line_delay_ =
        true → r.inital_cam_line_delay_s_ =
          (1 / swd0.cam_fps) * (1 / view10.image_height))) :=
  ⟨initSpline_line_delay (ImuCameraCalibrator.mk0 false false) rfl rfl rfl
    rfl rfl rfl rfl recon2 SE3.id swd0 0 Vec3.zero Vec3.zero telEmpty
    view10 [view11] rfl,
   initSpline_line_delay (ImuCameraCalibrator.mk0 true false) rfl rfl rfl
    rfl rfl rfl rfl recon2 SE3.id swd0 0 Vec3.zero Vec3.zero telEmpty
    view10 [view11] rfl⟩

/-- Witness for the amended C9 at a concrete used instance. -/
theorem initSpline_clear_eq_fresh_except_gravity_witness :
    ∃ r, InitSpline (ImuCameraCalibrator.mk0
        c3State.calibrate_cam_line_delay_ c3State.reestimate_biases_)
      recon2 SE3.id swd0 0 Vec3.zero Vec3.zero telEmpty = .ok r ∧
      InitSpline (ClearSpline c3State) recon2 SE3.id swd0 0 Vec3.zero
        Vec3.zero telEmpty =
        .ok { r with gravity_init_ := c3State.gravity_init_,
                     gravity_initialized_ :=
                       c3State.gravity_initialized_ } :=
  initSpline_clear_eq_fresh_except_gravity c3State recon2 SE3.id swd0 0
    Vec3.zero Vec3.zero telEmpty (by simp [recon2])

/-- Witness for C10 at a concrete two-frame reconstruction with distinct
timestamps. -/
theorem initSpline_max_frame_never_ingested_witness :
    ∃ r, InitSpline (ImuCameraCalibrator.mk0 false false) recon2 SE3.id
      swd0 0 Vec3.zero Vec3.zero telEmpty = .ok r ∧
      r.tend_s_ ∈ recon2.views.map View.timestamp ∧
      (∀ t ∈ recon2.views.map View.timestamp, t ≤ r.tend_s_) ∧
      (∀ view ∈ recon2.views, view.timestamp = r.tend_s_ →
        ¬(r.t0_s_ ≤ view.timestamp ∧ view.timestamp < r.tend_s_)) ∧
      (∀ p ∈ r.calib_corners_, ∃ view ∈ recon2.views,
        view.timestamp < r.tend_s_ ∧
        p.1 = ⟨cppToInt64 (view.timestamp * 1000000000), 0⟩) ∧
      (∀ p ∈ r.calib_init_poses_, ∃ view ∈ recon2.views,
        view.timestamp < r.tend_s_ ∧
        p.1 = ⟨cppToInt64 (view.timestamp * 1000000000), 0⟩) ∧
      (∀ p ∈ r.spline_init_poses_, ∃ view ∈ recon2.views,
        view.timestamp < r.tend_s_ ∧
        p.1 = ⟨cppToInt64 (view.timestamp * 1000000000), 0⟩) ∧
      (∀ fid ∈ r.trajectory_.corner_meas, ∃ view ∈ recon2.views,
        view.timestamp < r.tend_s_ ∧
        fid = cppToInt64 (view.timestamp * 1000000000)) :=
  initSpline_max_frame_never_ingested (ImuCameraCalibrator.mk0 false
    false) rfl rfl rfl rfl rfl rfl rfl recon2 SE3.id swd0 0 Vec3.zero
    Vec3.zero telEmpty (by simp [recon2])
    ⟨view10, by simp [recon2], view11, by simp [recon2],
      by norm_num [view10, view11]⟩

end ImuCameraCalibrator
